import Mathlib

/-!
# dhcpd: a shallow embedding of `src/dhcpd.c`

The server keeps two process-wide byte buffers (`recv_buffer`, `send_buffer`),
a lease database handle and its own address (`server_id`).  Buffers are modelled
as functions from byte offsets to byte values, pointers into a buffer as offsets,
and every call that touches the outside world (database query, `sendto`,
`stderr`) is recorded in a trace of events.
-/

namespace Dhcpd

/-! ## Memory -/

/-- A byte buffer: the byte stored at every offset. -/
abbrev Buf := Nat → Nat

/-- Size of the global `recv_buffer` (`#define RECV_BUF_LEN 4096`). -/
def RECV_BUF_LEN : Nat := 4096

/-- Size of the global `send_buffer` (`#define SEND_BUF_LEN 4096`). -/
def SEND_BUF_LEN : Nat := 4096

/-- The C `struct in_addr`: four bytes in memory order, which for an IPv4
address is network byte order. -/
structure in_addr where
  b0 : Nat
  b1 : Nat
  b2 : Nat
  b3 : Nat
deriving DecidableEq, Repr

/-- The four bytes of an address, lowest memory address first. -/
def in_addr.bytes (a : in_addr) : List Nat := [a.b0, a.b1, a.b2, a.b3]

/-- The assignment `p[i] = v` on a byte buffer. -/
def store (b : Buf) (i v : Nat) : Buf := fun j => if j = i then v else b j

/-- Consecutive byte stores starting at offset `i`. -/
def store_bytes (b : Buf) (i : Nat) : List Nat → Buf
  | [] => b
  | v :: vs => store_bytes (store b i v) (i + 1) vs

/-- The call `memset(buf, c, n)` on the start of a buffer. -/
def memset (b : Buf) (c n : Nat) : Buf := fun j => if j < n then c else b j

/-- Reading a `struct in_addr` through a pointer at offset `i`. -/
def load_in_addr (b : Buf) (i : Nat) : in_addr := ⟨b i, b (i + 1), b (i + 2), b (i + 3)⟩

/-- The assignment `*(struct in_addr *)(p) = a`. -/
def store_in_addr (b : Buf) (i : Nat) (a : in_addr) : Buf := store_bytes b i a.bytes

/-- Modelled from the spec: `COPY_ARRAY(dst, src, n)` comes from `array.h`, which is
not among the sources; it copies the first `n` elements of `src` to `dst`. -/
def COPY_ARRAY (b : Buf) (dst : Nat) (src : List Nat) (n : Nat) : Buf :=
  store_bytes b dst (src.take n)

/-- The `len` bytes of a buffer starting at `off`: what `sendto(fd, buf + off, len, ...)`
transmits. -/
def bytes_at (b : Buf) : Nat → Nat → List Nat
  | _, 0 => []
  | off, n + 1 => b off :: bytes_at b (off + 1) n

/-! ## Integer helpers -/

/-- Conversion of a C integer value to `uint32_t`. -/
def to_uint32 (z : Int) : Nat := (z % 4294967296).toNat

/-- Conversion of a C integer value to `uint8_t`. -/
def to_uint8 (z : Int) : Nat := (z % 256).toNat

/-- The memory image of `htonl(v)`: the four bytes of the 32-bit value `v`, most
significant first, whatever the byte order of the host. -/
def htonl (v : Nat) : List Nat :=
  [v / 16777216 % 256, v / 65536 % 256, v / 256 % 256, v % 256]

/-- The C expression `1 << n` on a 32-bit `int`.  For `0 ≤ n < 31` it is `2^n`; for
`n = 31` it is the sign bit (`INT_MIN`); for any other count C leaves the result
undefined and `undef n` is what the platform produces. -/
def shl_one (undef : Int → Int) (n : Int) : Int :=
  if 0 ≤ n ∧ n < 31 then 2 ^ n.toNat
  else if n = 31 then -2147483648
  else undef n

/-- What `1 << n` produces for an out-of-range count on processors that use only the
low five bits of the count (x86, AArch64). -/
def shl_one_mod32 (n : Int) : Int :=
  if n % 32 = 31 then -2147483648 else 2 ^ (n % 32).toNat

/-- `netmask_from_prefixlen` (dhcpd.c:56-59):
`htonl(0xFFFFFFFFU - (1 << (32 - prefixlen)) + 1)`, with `prefixlen` a `uint8_t`
promoted to `int` and the subtraction and addition done in `unsigned`. -/
def netmask_from_prefixlen (undef : Int → Int) (prefixlen : Nat) : List Nat :=
  htonl (to_uint32 ((to_uint32 (4294967295 - shl_one undef (32 - (prefixlen : Int))) : Int) + 1))

/-- The 32-bit value whose top `p` bits are set and whose other bits are clear. -/
def top_bits (p : Nat) : Nat := 4294967296 - 2 ^ (32 - p)

/-! ## Wire format (`dhcp.h`) -/

/-- Modelled from the spec: `dhcp.h` is not among the sources.  Offset of `op` (§6). -/
def DHCP_MSG_F_OP : Nat := 0
/-- Modelled from the spec: offset of `htype` (§6). -/
def DHCP_MSG_F_HTYPE : Nat := 1
/-- Modelled from the spec: offset of `hlen` (§6). -/
def DHCP_MSG_F_HLEN : Nat := 2
/-- Modelled from the spec: offset of `hops` (§6). -/
def DHCP_MSG_F_HOPS : Nat := 3
/-- Modelled from the spec: offset of the 4-byte `xid` (§6). -/
def DHCP_MSG_F_XID : Nat := 4
/-- Modelled from the spec: offset of the 2-byte `secs` (§6). -/
def DHCP_MSG_F_SECS : Nat := 8
/-- Modelled from the spec: offset of the 2-byte `flags` (§6). -/
def DHCP_MSG_F_FLAGS : Nat := 10
/-- Modelled from the spec: offset of `ciaddr` (§6). -/
def DHCP_MSG_F_CIADDR : Nat := 12
/-- Modelled from the spec: offset of `yiaddr` (§6). -/
def DHCP_MSG_F_YIADDR : Nat := 16
/-- Modelled from the spec: offset of `siaddr` (§6). -/
def DHCP_MSG_F_SIADDR : Nat := 20
/-- Modelled from the spec: offset of `giaddr` (§6). -/
def DHCP_MSG_F_GIADDR : Nat := 24
/-- Modelled from the spec: offset of the 16-byte `chaddr` (§6). -/
def DHCP_MSG_F_CHADDR : Nat := 28
/-- Modelled from the spec: offset of the magic cookie, after the 236-byte header (§4.2). -/
def DHCP_MSG_F_MAGIC : Nat := 236
/-- Modelled from the spec: offset of the option region, 240 (§4.2). -/
def DHCP_MSG_F_OPTIONS : Nat := 240

/-- Modelled from the spec: `DHCP_MSG_HDRLEN` of `dhcp.h`, the length accounted for
before the first option: 236 header bytes and the 4-byte cookie (§3, §4.2). -/
def DHCP_MSG_HDRLEN : Nat := 240

/-- Modelled from the spec: `DHCP_MSG_LEN` of `dhcp.h`, the size of the "fixed-size
output buffer" that is zeroed for each reply (§4.2), whose capacity is 4096 bytes.
At most 274 bytes are ever transmitted, so every value from 274 up gives the same
datagrams. -/
def DHCP_MSG_LEN : Nat := 4096

/-- Modelled from the spec: option code 53, DHCP message type (§6). -/
def DHCP_OPT_MSGTYPE : Nat := 53
/-- Modelled from the spec: option code 1, subnet mask (§6). -/
def DHCP_OPT_NETMASK : Nat := 1
/-- Modelled from the spec: option code 3, router (§6). -/
def DHCP_OPT_ROUTER : Nat := 3
/-- Modelled from the spec: option code 54, server identifier (§6). -/
def DHCP_OPT_SERVERID : Nat := 54
/-- Modelled from the spec: option code 51, IP lease time (§6). -/
def DHCP_OPT_LEASETIME : Nat := 51
/-- Modelled from the spec: option code 6, domain name server (§6). -/
def DHCP_OPT_DNS : Nat := 6
/-- Modelled from the spec: option code 255, END (§6). -/
def DHCP_OPT_END : Nat := 255

/-- Modelled from the spec: message type 1 (§6). -/
def DHCPDISCOVER : Nat := 1
/-- Modelled from the spec: message type 2 (§6). -/
def DHCPOFFER : Nat := 2
/-- Modelled from the spec: message type 3 (§6). -/
def DHCPREQUEST : Nat := 3
/-- Modelled from the spec: message type 4 (§6). -/
def DHCPDECLINE : Nat := 4
/-- Modelled from the spec: message type 5 (§6). -/
def DHCPACK : Nat := 5
/-- Modelled from the spec: message type 6 (§6). -/
def DHCPNAK : Nat := 6
/-- Modelled from the spec: message type 7 (§6). -/
def DHCPRELEASE : Nat := 7
/-- Modelled from the spec: message type 8 (§6). -/
def DHCPINFORM : Nat := 8

/-- Modelled from the spec: `DHCP_MSG_MAGIC_CHECK(m)` of `dhcp.h`: the four bytes at
`m` equal `0x63 0x82 0x53 0x63` (§3, §4.2). -/
def DHCP_MSG_MAGIC_CHECK (b : Buf) (m : Nat) : Bool :=
  b m == 99 && b (m + 1) == 130 && b (m + 2) == 83 && b (m + 3) == 99

/-- Modelled from the spec: `DHCP_OPT_NEXT(o)` of `dhcp.h`: the position after the
option at `o`, which is `o` plus code byte, length byte and `length` data bytes
(§4.2, `append_option` "advances position"). -/
def DHCP_OPT_NEXT (b : Buf) (o : Nat) : Nat := o + 2 + b (o + 1)

/-- Modelled from the spec: `dhcp_msg_prepare(reply, original)` of `dhcp.h`: sets
op = 2, copies htype, hlen, xid, flags, giaddr and chaddr from the request and
writes the magic cookie (§4.2); the zeroing is the caller's `memset`. -/
def dhcp_msg_prepare (reply original : Buf) : Buf := fun j =>
  if j = DHCP_MSG_F_OP then 2
  else if j = DHCP_MSG_F_HTYPE ∨ j = DHCP_MSG_F_HLEN then original j
  else if DHCP_MSG_F_XID ≤ j ∧ j < DHCP_MSG_F_XID + 4 then original j
  else if DHCP_MSG_F_FLAGS ≤ j ∧ j < DHCP_MSG_F_FLAGS + 2 then original j
  else if DHCP_MSG_F_GIADDR ≤ j ∧ j < DHCP_MSG_F_GIADDR + 4 then original j
  else if DHCP_MSG_F_CHADDR ≤ j ∧ j < DHCP_MSG_F_CHADDR + 16 then original j
  else if j = DHCP_MSG_F_MAGIC then 99
  else if j = DHCP_MSG_F_MAGIC + 1 then 130
  else if j = DHCP_MSG_F_MAGIC + 2 then 83
  else if j = DHCP_MSG_F_MAGIC + 3 then 99
  else reply j

/-- The C `struct dhcp_opt`: option code, length byte and a pointer to the data. -/
structure dhcp_opt where
  code : Nat
  len : Nat
  data : Nat
deriving DecidableEq, Repr

/-- Modelled from the spec: the loop of `dhcp_opt_next` (§4.1), with one unit of
`fuel` for each byte between the cursor and `end`. -/
def dhcp_opt_next_loop (b : Buf) (e : Nat) : Nat → Nat → Option (dhcp_opt × Nat)
  | 0, _ => none
  | fuel + 1, pos =>
    if e ≤ pos then none
    else if b pos = 255 then none
    else if b pos = 0 then dhcp_opt_next_loop b e fuel (pos + 1)
    else if e < pos + 2 + b (pos + 1) then none
    else some (⟨b pos, b (pos + 1), pos + 2⟩, pos + 2 + b (pos + 1))

/-- Modelled from the spec: `dhcp_opt_next(&cur, &opt, end)` of `dhcp.h` (§4.1).
Nothing is produced at or past `end` or at END (255); PAD (0) is skipped; an option
whose data would pass `end` ends the iteration; otherwise the option is produced
together with the advanced cursor. -/
def dhcp_opt_next (b : Buf) (pos e : Nat) : Option (dhcp_opt × Nat) :=
  dhcp_opt_next_loop b e (e - pos) pos

/-! ## Text -/

/-- One uppercase hexadecimal digit. -/
def hex_digit (n : Nat) : Char :=
  if n < 10 then Char.ofNat (48 + n) else Char.ofNat (55 + n)

/-- The definition `#define MAC_ADDRSTRLEN 18`. -/
def MAC_ADDRSTRLEN : Nat := 18

/-- The value of `addr[i]`, a `char` holding the byte `v`, after promotion to `int`
where `char` is signed: the bytes from 0x80 up are negative. -/
def char_to_int (v : Nat) : Int :=
  if v % 256 < 128 then ((v % 256 : Nat) : Int) else ((v % 256 : Nat) : Int) - 256

/-- The conversion `%02hhX`: the `int` argument converted to `unsigned char`, written
as two uppercase hexadecimal digits. -/
def fmt_02hhX (z : Int) : List Char := [hex_digit (to_uint8 z / 16), hex_digit (to_uint8 z % 16)]

/-- `mac_ntop` (dhcpd.c:48-53): the text that
`snprintf(dst, s, "%02hhX:%02hhX:%02hhX:%02hhX:%02hhX:%02hhX", addr[0], ..., addr[5])`
writes to `dst`, which is at most `s - 1` characters before the terminating NUL. -/
def mac_ntop (b : Buf) (addr : Nat) (s : Nat) : String :=
  String.mk ((fmt_02hhX (char_to_int (b addr)) ++ ':' ::
    fmt_02hhX (char_to_int (b (addr + 1))) ++ ':' ::
    fmt_02hhX (char_to_int (b (addr + 2))) ++ ':' ::
    fmt_02hhX (char_to_int (b (addr + 3))) ++ ':' ::
    fmt_02hhX (char_to_int (b (addr + 4))) ++ ':' ::
    fmt_02hhX (char_to_int (b (addr + 5)))).take (s - 1))

/-- The scanning loop of the C library's `inet_pton(AF_INET, ...)`: decimal octets
of at most three digits and value at most 255, no leading zero, separated by single
dots, exactly four of them.  `done` holds the finished octets, `cur` the octet
being read. -/
def inet_pton4 : List Char → List Nat → Nat → Bool → Nat → Option in_addr
  | [], done, cur, _, octets =>
    if octets < 4 then none
    else match done ++ [cur] with
      | [a, b, c, d] => some ⟨a, b, c, d⟩
      | _ => none
  | ch :: rest, done, cur, saw_digit, octets =>
    if 48 ≤ ch.toNat ∧ ch.toNat ≤ 57 then
      if saw_digit = true ∧ cur = 0 then none
      else if 255 < cur * 10 + (ch.toNat - 48) then none
      else if saw_digit = false then
        if 4 < octets + 1 then none
        else inet_pton4 rest done (cur * 10 + (ch.toNat - 48)) true (octets + 1)
      else inet_pton4 rest done (cur * 10 + (ch.toNat - 48)) saw_digit octets
    else if ch = '.' ∧ saw_digit = true then
      if octets = 4 then none
      else inet_pton4 rest (done ++ [cur]) 0 false octets
    else none

/-- How the call `inet_pton(AF_INET, src, &dst)` ends: the process is stopped because
`src` is a null pointer, which the C library reads without a check; it returns 0
because the text is not an IPv4 address; or it returns 1 and has written `dst`. -/
inductive pton_result
  | fault
  | failure
  | success (dst : in_addr)
deriving DecidableEq, Repr

/-- The C library call `inet_pton(AF_INET, src, &dst)` on a `const char *` that is
either null (`none`) or points to a text. -/
def inet_pton : Option String → pton_result
  | none => pton_result.fault
  | some src =>
    match inet_pton4 src.data [] 0 false 0 with
    | none => pton_result.failure
    | some dst => pton_result.success dst

/-! ## The lease database and the outside world -/

/-- One row of the `leases` table as the `sqlite3_column_*` calls return it: three
text columns, for each of which `sqlite3_column_text` returns a null pointer (`none`)
when the stored value is SQL NULL, and two `int` columns. -/
structure lease_row where
  address : Option String
  routers : Option String
  nameservers : Option String
  prefixlen : Int
  leasetime : Int
deriving DecidableEq, Repr

/-- How the query `SELECT ... FROM leases WHERE hwaddr = ?` ends: `sqlite3_prepare_v2`
fails, `sqlite3_bind_text` fails, or `sqlite3_step` returns `SQLITE_ROW` with the
row, `SQLITE_DONE`, or an error code. -/
inductive query_result
  | prepare_error
  | bind_error
  | row (r : lease_row)
  | done
  | step_error
deriving DecidableEq, Repr

/-- Lines written to `stderr`. -/
inductive diagnostic
  | sqlite3_error
  | invalid_lease_entry (hwaddr : String)
  | could_not_send (what : String)
  | debug_dump (msg_type : Nat)
  | broken_software_notification
deriving DecidableEq, Repr

/-- What a handler does to the outside world, in order. -/
inductive event
  | lookup (hwaddr : String)
  | sendto (datagram : List Nat)
  | stderr (d : diagnostic)
deriving DecidableEq, Repr

/-- Everything the handlers read that is not in the buffers: the global `server_id`,
the lease database as the answer to the query for each hardware-address text,
whether `sendto` reports an error for a datagram, and the result of `1 << n` for
the counts for which C does not define it. -/
structure Env where
  server_id : in_addr
  leasedb : String → query_result
  sendto_fails : List Nat → Bool
  shl_undef : Int → Int

/-- The fields of the C `struct dhcp_msg` that the handlers use: `data` (the receive
buffer), `end` (offset one past the last received byte), `length`, `type` and the
hardware-address text `chaddr`. -/
structure dhcp_msg where
  data : Buf
  msg_end : Nat
  length : Nat
  type : Nat
  chaddr : String

/-- State after a handler has run: the global `send_buffer`, the events in order,
and whether the process was stopped by a read through a null pointer. -/
structure handler_result where
  send_buffer : Buf
  trace : List event
  crashed : Bool

/-- The datagrams handed to `sendto`, in order. -/
def sent : List event → List (List Nat)
  | [] => []
  | event.sendto d :: es => d :: sent es
  | _ :: es => sent es

/-- The hardware addresses looked up in the lease database, in order. -/
def lookups : List event → List String
  | [] => []
  | event.lookup k :: es => k :: lookups es
  | _ :: es => lookups es

/-- The `sendto` call of a handler followed by its `if (err < 0) error(...)`. -/
def do_sendto (env : Env) (send_buffer : Buf) (send_len : Nat) (what : String) : List event :=
  if env.sendto_fails (bytes_at send_buffer 0 send_len) then
    [event.sendto (bytes_at send_buffer 0 send_len), event.stderr (diagnostic.could_not_send what)]
  else [event.sendto (bytes_at send_buffer 0 send_len)]

/-! ## The handlers -/

/-- `discover_cb` (dhcpd.c:61-202).  The three failures of the query end in the same
`error(0, 0, "sqlite3: ...")`; the three `inet_pton` calls get the column pointers
unchecked, so a null pointer stops the process at the first call that meets one,
and a call that returns 0 jumps to `invalid_lease_entry`, whose `fprintf` is one
line on `stderr` whatever the columns not yet looked at hold; the reply is written into the global `send_buffer` store by
store, each `options = DHCP_OPT_NEXT(options)` reading back the length byte just
written.  The last such assignment, after END, sets a pointer that is never used
and is left out. -/
def discover_cb (env : Env) (send_buffer : Buf) (msg : dhcp_msg) : handler_result :=
  match env.leasedb msg.chaddr with
  | query_result.prepare_error =>
    ⟨send_buffer, [event.lookup msg.chaddr, event.stderr diagnostic.sqlite3_error], false⟩
  | query_result.bind_error =>
    ⟨send_buffer, [event.lookup msg.chaddr, event.stderr diagnostic.sqlite3_error], false⟩
  | query_result.step_error =>
    ⟨send_buffer, [event.lookup msg.chaddr, event.stderr diagnostic.sqlite3_error], false⟩
  | query_result.done => ⟨send_buffer, [event.lookup msg.chaddr], false⟩
  | query_result.row r =>
    let prefixlen := to_uint8 r.prefixlen
    let leasetime := to_uint32 r.leasetime
    let invalid_lease_entry : handler_result :=
      ⟨send_buffer, [event.lookup msg.chaddr,
        event.stderr (diagnostic.invalid_lease_entry msg.chaddr)], false⟩
    let null_read : handler_result := ⟨send_buffer, [event.lookup msg.chaddr], true⟩
    match inet_pton r.address with
    | pton_result.fault => null_read
    | pton_result.failure => invalid_lease_entry
    | pton_result.success address =>
    match inet_pton r.routers with
    | pton_result.fault => null_read
    | pton_result.failure => invalid_lease_entry
    | pton_result.success routers =>
    match inet_pton r.nameservers with
    | pton_result.fault => null_read
    | pton_result.failure => invalid_lease_entry
    | pton_result.success nameservers =>
    let netmask := netmask_from_prefixlen env.shl_undef prefixlen
    let send_len := DHCP_MSG_HDRLEN
    let b := memset send_buffer 0 DHCP_MSG_LEN
    let b := dhcp_msg_prepare b msg.data
    let b := COPY_ARRAY b DHCP_MSG_F_SIADDR env.server_id.bytes 4
    let b := store_in_addr b DHCP_MSG_F_YIADDR address
    let options := DHCP_MSG_F_OPTIONS
    let b := store b options DHCP_OPT_MSGTYPE
    let b := store b (options + 1) 1
    let b := store b (options + 2) DHCPOFFER
    let options := DHCP_OPT_NEXT b options
    let send_len := send_len + 3
    let b := store b options DHCP_OPT_NETMASK
    let b := store b (options + 1) 4
    let b := COPY_ARRAY b (options + 2) netmask 4
    let options := DHCP_OPT_NEXT b options
    let send_len := send_len + 6
    let b := store b options DHCP_OPT_ROUTER
    let b := store b (options + 1) 4
    let b := store_in_addr b (options + 2) routers
    let options := DHCP_OPT_NEXT b options
    let send_len := send_len + 6
    let b := store b options DHCP_OPT_SERVERID
    let b := store b (options + 1) 4
    let b := COPY_ARRAY b (options + 2) env.server_id.bytes 4
    let options := DHCP_OPT_NEXT b options
    let send_len := send_len + 6
    let b := store b options DHCP_OPT_LEASETIME
    let b := store b (options + 1) 4
    let b := store_bytes b (options + 2) (htonl leasetime)
    let options := DHCP_OPT_NEXT b options
    let send_len := send_len + 6
    let b := store b options DHCP_OPT_DNS
    let b := store b (options + 1) 4
    let b := store_in_addr b (options + 2) nameservers
    let options := DHCP_OPT_NEXT b options
    let send_len := send_len + 6
    let b := store b options DHCP_OPT_END
    let send_len := send_len + 1
    ⟨b, event.lookup msg.chaddr :: do_sendto env b send_len "Could not send DHCPOFFER", false⟩

/-- The option loop of `request_cb` (dhcpd.c:214-223): `requested_addr` (a pointer
that starts as `NULL`) is set to the data of each option 50, `requested_server` to
the data of each option 54.  One unit of `fuel` for each byte up to `end`. -/
def request_cb_options (b : Buf) (e : Nat) : Nat → Nat → Option Nat → Nat → Option Nat × Nat
  | 0, _, requested_addr, requested_server => (requested_addr, requested_server)
  | fuel + 1, options, requested_addr, requested_server =>
    match dhcp_opt_next b options e with
    | none => (requested_addr, requested_server)
    | some (current_opt, next) =>
      if current_opt.code = 50 then
        request_cb_options b e fuel next (some current_opt.data) requested_server
      else if current_opt.code = 54 then
        request_cb_options b e fuel next requested_addr current_opt.data
      else request_cb_options b e fuel next requested_addr requested_server

/-- The `nack:` block of `request_cb` (dhcpd.c:305-331). -/
def request_cb_nack (env : Env) (send_buffer : Buf) (msg : dhcp_msg)
    (before : List event) : handler_result :=
  let send_len := DHCP_MSG_HDRLEN
  let b := memset send_buffer 0 DHCP_MSG_LEN
  let b := dhcp_msg_prepare b msg.data
  let b := COPY_ARRAY b DHCP_MSG_F_SIADDR env.server_id.bytes 4
  let options := DHCP_MSG_F_OPTIONS
  let b := store b options DHCP_OPT_MSGTYPE
  let b := store b (options + 1) 1
  let b := store b (options + 2) DHCPNAK
  let options := DHCP_OPT_NEXT b options
  let send_len := send_len + 3
  let b := store b options DHCP_OPT_END
  let send_len := send_len + 1
  ⟨b, before ++ do_sendto env b send_len "Could not send DHCPNAK", false⟩

/-- `request_cb` (dhcpd.c:204-397).  `requested_server->s_addr` is the four bytes at
the pointer; a failed query returns without a reply (the label `sql_error` and the
early `return` after `sqlite3_prepare_v2`); `SQLITE_DONE` and an invalid row jump to
`nack`; a null column pointer stops the process in `inet_pton`; `memcmp(&address, requested_addr, 4)` reads four bytes at `requested_addr`,
which is still `NULL` when the message had no option 50. -/
def request_cb (env : Env) (send_buffer : Buf) (msg : dhcp_msg) : handler_result :=
  match request_cb_options msg.data msg.msg_end (msg.msg_end - DHCP_MSG_F_OPTIONS)
      DHCP_MSG_F_OPTIONS none DHCP_MSG_F_SIADDR with
  | (requested_addr, requested_server) =>
  if load_in_addr msg.data requested_server ≠ env.server_id then ⟨send_buffer, [], false⟩
  else
  match env.leasedb msg.chaddr with
  | query_result.prepare_error =>
    ⟨send_buffer, [event.lookup msg.chaddr, event.stderr diagnostic.sqlite3_error], false⟩
  | query_result.bind_error =>
    ⟨send_buffer, [event.lookup msg.chaddr, event.stderr diagnostic.sqlite3_error], false⟩
  | query_result.step_error =>
    ⟨send_buffer, [event.lookup msg.chaddr, event.stderr diagnostic.sqlite3_error], false⟩
  | query_result.done => request_cb_nack env send_buffer msg [event.lookup msg.chaddr]
  | query_result.row r =>
    let prefixlen := to_uint8 r.prefixlen
    let leasetime := to_uint32 r.leasetime
    let invalid_lease_entry : handler_result :=
      request_cb_nack env send_buffer msg [event.lookup msg.chaddr,
        event.stderr (diagnostic.invalid_lease_entry msg.chaddr)]
    let null_read : handler_result := ⟨send_buffer, [event.lookup msg.chaddr], true⟩
    match inet_pton r.address with
    | pton_result.fault => null_read
    | pton_result.failure => invalid_lease_entry
    | pton_result.success address =>
    match inet_pton r.routers with
    | pton_result.fault => null_read
    | pton_result.failure => invalid_lease_entry
    | pton_result.success routers =>
    match inet_pton r.nameservers with
    | pton_result.fault => null_read
    | pton_result.failure => invalid_lease_entry
    | pton_result.success nameservers =>
    let netmask := netmask_from_prefixlen env.shl_undef prefixlen
    match requested_addr with
    | none => ⟨send_buffer, [event.lookup msg.chaddr], true⟩
    | some requested_addr =>
    if address.bytes ≠ bytes_at msg.data requested_addr 4 then
      request_cb_nack env send_buffer msg [event.lookup msg.chaddr]
    else
    let send_len := DHCP_MSG_HDRLEN
    let b := memset send_buffer 0 DHCP_MSG_LEN
    let b := dhcp_msg_prepare b msg.data
    let b := COPY_ARRAY b DHCP_MSG_F_SIADDR env.server_id.bytes 4
    let b := store_in_addr b DHCP_MSG_F_YIADDR address
    let options := DHCP_MSG_F_OPTIONS
    let b := store b options DHCP_OPT_MSGTYPE
    let b := store b (options + 1) 1
    let b := store b (options + 2) DHCPACK
    let options := DHCP_OPT_NEXT b options
    let send_len := send_len + 3
    let b := store b options DHCP_OPT_NETMASK
    let b := store b (options + 1) 4
    let b := COPY_ARRAY b (options + 2) netmask 4
    let options := DHCP_OPT_NEXT b options
    let send_len := send_len + 6
    let b := store b options DHCP_OPT_ROUTER
    let b := store b (options + 1) 4
    let b := store_in_addr b (options + 2) routers
    let options := DHCP_OPT_NEXT b options
    let send_len := send_len + 6
    let b := store b options DHCP_OPT_SERVERID
    let b := store b (options + 1) 4
    let b := COPY_ARRAY b (options + 2) env.server_id.bytes 4
    let options := DHCP_OPT_NEXT b options
    let send_len := send_len + 6
    let b := store b options DHCP_OPT_LEASETIME
    let b := store b (options + 1) 4
    let b := store_bytes b (options + 2) (htonl leasetime)
    let options := DHCP_OPT_NEXT b options
    let send_len := send_len + 6
    let b := store b options DHCP_OPT_DNS
    let b := store b (options + 1) 4
    let b := store_in_addr b (options + 2) nameservers
    let options := DHCP_OPT_NEXT b options
    let send_len := send_len + 6
    let b := store b options DHCP_OPT_END
    let send_len := send_len + 1
    ⟨b, event.lookup msg.chaddr :: do_sendto env b send_len "Could not send DHCPACK", false⟩

/-- `release_cb` (dhcpd.c:399-401): an empty body. -/
def release_cb (_env : Env) (send_buffer : Buf) (_msg : dhcp_msg) : handler_result :=
  ⟨send_buffer, [], false⟩

/-- `decline_cb` (dhcpd.c:403-405): an empty body. -/
def decline_cb (_env : Env) (send_buffer : Buf) (_msg : dhcp_msg) : handler_result :=
  ⟨send_buffer, [], false⟩

/-- `inform_cb` (dhcpd.c:407-409): an empty body. -/
def inform_cb (_env : Env) (send_buffer : Buf) (_msg : dhcp_msg) : handler_result :=
  ⟨send_buffer, [], false⟩

/-! ## The receive callback -/

/-- The global `bool debug = true;`. -/
def debug : Bool := true

/-- The call `recvfrom(fd, recv_buffer, RECV_BUF_LEN, ...)`: on failure (`none`) the
buffer is untouched and the result is -1; otherwise the datagram, cut to the buffer
size, overwrites the start of the buffer and its length is returned.  Bytes of the
buffer past that length keep their earlier values. -/
def recvfrom (recv_buffer : Buf) (len : Nat) : Option (List Nat) → Buf × Int
  | none => (recv_buffer, -1)
  | some datagram =>
    (fun j => if j < min datagram.length len then datagram.getD j 0 else recv_buffer j,
      (min datagram.length len : Nat))

/-- The message-type loop of `req_cb` (dhcpd.c:456-458): `msg_type` becomes
`data[0]` of each option 53.  One unit of `fuel` for each byte up to `end`. -/
def req_cb_msg_type (b : Buf) (e : Nat) : Nat → Nat → Nat → Nat
  | 0, _, msg_type => msg_type
  | fuel + 1, options, msg_type =>
    match dhcp_opt_next b options e with
    | none => msg_type
    | some (current_option, next) =>
      if current_option.code = 53 then req_cb_msg_type b e fuel next (b current_option.data)
      else req_cb_msg_type b e fuel next msg_type

/-- State of the process after `req_cb`: both global buffers, the events in order,
and whether the process was stopped by a read through a null pointer. -/
structure req_result where
  recv_buffer : Buf
  send_buffer : Buf
  trace : List event
  crashed : Bool

/-- `req_cb` (dhcpd.c:411-526), run on the global buffers and one socket event:
`none` when `recvfrom` fails, `some d` when it delivers the datagram `d`. -/
def req_cb (env : Env) (recv_buffer send_buffer : Buf) (incoming : Option (List Nat)) :
    req_result :=
  match recvfrom recv_buffer RECV_BUF_LEN incoming with
  | (recv_buffer, recvd) =>
  if recvd < 0 then ⟨recv_buffer, send_buffer, [], false⟩
  else if recvd < 241 then ⟨recv_buffer, send_buffer, [], false⟩
  else if DHCP_MSG_MAGIC_CHECK recv_buffer DHCP_MSG_F_MAGIC = false then
    ⟨recv_buffer, send_buffer, [], false⟩
  else
  let chaddr := mac_ntop recv_buffer DHCP_MSG_F_CHADDR MAC_ADDRSTRLEN
  let msg_type := req_cb_msg_type recv_buffer recvd.toNat (recvd.toNat - DHCP_MSG_F_OPTIONS)
    DHCP_MSG_F_OPTIONS 0
  let dump : List event := if debug then [event.stderr (diagnostic.debug_dump msg_type)] else []
  let msg : dhcp_msg := ⟨recv_buffer, recvd.toNat, recvd.toNat, msg_type, chaddr⟩
  let finish (r : handler_result) : req_result :=
    ⟨recv_buffer, r.send_buffer, dump ++ r.trace, r.crashed⟩
  if msg_type = DHCPDISCOVER then finish (discover_cb env send_buffer msg)
  else if msg_type = DHCPREQUEST then finish (request_cb env send_buffer msg)
  else if msg_type = DHCPRELEASE then finish (release_cb env send_buffer msg)
  else if msg_type = DHCPDECLINE then finish (decline_cb env send_buffer msg)
  else if msg_type = DHCPINFORM then finish (inform_cb env send_buffer msg)
  else ⟨recv_buffer, send_buffer,
    dump ++ [event.stderr diagnostic.broken_software_notification], false⟩

/-! ## Reference shapes used in the statements -/

/-- The header buffer of a reply: zeroed, prepared from the request, `siaddr` set to
the server identity and, for OFFER and ACK, `yiaddr` set to the lease address. -/
def reply_header_buf (send_buffer original : Buf) (server_id : in_addr)
    (yiaddr : Option in_addr) : Buf :=
  match yiaddr with
  | none => COPY_ARRAY (dhcp_msg_prepare (memset send_buffer 0 DHCP_MSG_LEN) original)
      DHCP_MSG_F_SIADDR server_id.bytes 4
  | some a => store_in_addr
      (COPY_ARRAY (dhcp_msg_prepare (memset send_buffer 0 DHCP_MSG_LEN) original)
        DHCP_MSG_F_SIADDR server_id.bytes 4) DHCP_MSG_F_YIADDR a

/-- The option region of an OFFER (`msg_type` 2) or ACK (`msg_type` 5): message type,
netmask, router, server identifier, lease time, DNS, END. -/
def lease_options (msg_type : Nat) (netmask : List Nat) (router server_id : in_addr)
    (leasetime : Nat) (nameserver : in_addr) : List Nat :=
  [53, 1, msg_type] ++ (1 :: 4 :: netmask) ++ (3 :: 4 :: router.bytes) ++
    (54 :: 4 :: server_id.bytes) ++ (51 :: 4 :: htonl leasetime) ++
    (6 :: 4 :: nameserver.bytes) ++ [255]

/-- The `yiaddr` field of a datagram. -/
def dgram_yiaddr (d : List Nat) : List Nat := (d.drop DHCP_MSG_F_YIADDR).take 4

/-- The `siaddr` field of a datagram. -/
def dgram_siaddr (d : List Nat) : List Nat := (d.drop DHCP_MSG_F_SIADDR).take 4

/-- The option region of a datagram: everything from offset 240 on. -/
def dgram_options (d : List Nat) : List Nat := d.drop DHCP_MSG_F_OPTIONS

/-- The options that the cursor yields from `pos` up to `e`, in order: the sequence of
successful `dhcp_opt_next` calls of a `while` loop.  One unit of `fuel` for each byte
up to `e`. -/
def dhcp_opt_list (b : Buf) (e : Nat) : Nat → Nat → List dhcp_opt
  | 0, _ => []
  | fuel + 1, pos =>
    match dhcp_opt_next b pos e with
    | none => []
    | some (o, next) => o :: dhcp_opt_list b e fuel next

/-- The options of a message, from the start of its option region to its end. -/
def msg_options (msg : dhcp_msg) : List dhcp_opt :=
  dhcp_opt_list msg.data msg.msg_end (msg.msg_end - DHCP_MSG_F_OPTIONS) DHCP_MSG_F_OPTIONS

/-- The data pointer of the last option with the given code, if there is one. -/
def last_option (code : Nat) (opts : List dhcp_opt) : Option Nat :=
  ((opts.filter (fun o => o.code = code)).getLast?).map dhcp_opt.data

/-- The pointer `requested_addr` after the option loop of `request_cb`: the data of
the last option 50 of the message, `none` (the C `NULL`) when there is no option 50. -/
def requested_addr_ptr (msg : dhcp_msg) : Option Nat := last_option 50 (msg_options msg)

/-- The pointer `requested_server` after the option loop of `request_cb`: the data of
the last option 54 of the message, and the `siaddr` header field when there is no
option 54. -/
def requested_server_ptr (msg : dhcp_msg) : Nat :=
  (last_option 54 (msg_options msg)).getD DHCP_MSG_F_SIADDR

/-- A sample lease row: the record of the specification's example with prefix
length `p`. -/
def sample_row (p : Int) : lease_row :=
  ⟨some "192.0.2.10", some "192.0.2.1", some "192.0.2.1", p, 3600⟩

/-- A sample environment: server identity 192.0.2.1, a database that answers every
query with `q`, a `sendto` that succeeds. -/
def sample_env (q : query_result) (undef : Int → Int) : Env :=
  ⟨⟨192, 0, 2, 1⟩, fun _ => q, fun _ => false, undef⟩

/-- A sample request datagram: a BOOTP header for the hardware address
00:0B:82:01:FC:42, the magic cookie, and the given option bytes. -/
def sample_datagram (opts : List Nat) : List Nat :=
  [1, 1, 6, 0, 57, 3, 243, 38, 0, 0, 0, 0, 0, 0, 0, 0, 0, 0, 0, 0, 0, 0, 0, 0, 0, 0, 0, 0,
    0, 11, 130, 1, 252, 66] ++ List.replicate 202 0 ++ [99, 130, 83, 99] ++ opts

/-- The `struct dhcp_msg` that `req_cb` builds for a datagram received into a zeroed
buffer. -/
def sample_msg (d : List Nat) (type : Nat) : dhcp_msg :=
  ⟨fun j => d.getD j 0, d.length, d.length, type,
    mac_ntop (fun j => d.getD j 0) DHCP_MSG_F_CHADDR MAC_ADDRSTRLEN⟩

/-- A sample DISCOVER: message type 1, END. -/
def sample_discover : dhcp_msg := sample_msg (sample_datagram [53, 1, 1, 255]) 1

/-- A sample REQUEST for 192.0.2.10 addressed to the server 192.0.2.1. -/
def sample_request : dhcp_msg :=
  sample_msg (sample_datagram [53, 1, 3, 50, 4, 192, 0, 2, 10, 54, 4, 192, 0, 2, 1, 255]) 3

/-- A sample REQUEST for 192.0.2.10 addressed to another server, 192.0.2.2. -/
def sample_request_other : dhcp_msg :=
  sample_msg (sample_datagram [53, 1, 3, 50, 4, 192, 0, 2, 10, 54, 4, 192, 0, 2, 2, 255]) 3

/-- The four bytes at the cookie offset 236 of a received datagram. -/
def dgram_cookie (d : List Nat) : List Nat :=
  [d.getD 236 0, d.getD 237 0, d.getD 238 0, d.getD 239 0]

/-- The receive buffer after `recvfrom` has delivered the datagram `d`. -/
def received (recv_buffer : Buf) (d : List Nat) : Buf :=
  (recvfrom recv_buffer RECV_BUF_LEN (some d)).1

/-- The value `recvd` that `recvfrom` returns for the datagram `d`. -/
def received_len (d : List Nat) : Nat := min d.length RECV_BUF_LEN

/-- The message type `req_cb` dispatches on after receiving `d`. -/
def classified_type (recv_buffer : Buf) (d : List Nat) : Nat :=
  req_cb_msg_type (received recv_buffer d) (received_len d)
    (received_len d - DHCP_MSG_F_OPTIONS) DHCP_MSG_F_OPTIONS 0

/-- The `struct dhcp_msg` that `req_cb` hands to the handlers after receiving `d`. -/
def received_msg (recv_buffer : Buf) (d : List Nat) : dhcp_msg :=
  ⟨received recv_buffer d, received_len d, received_len d, classified_type recv_buffer d,
    mac_ntop (received recv_buffer d) DHCP_MSG_F_CHADDR MAC_ADDRSTRLEN⟩

/-- What `req_cb` leaves behind after a handler has run on a classified message: the
debug dump, then the handler's events. -/
def after_handler (recv_buffer : Buf) (d : List Nat) (r : handler_result) : req_result :=
  ⟨received recv_buffer d, r.send_buffer,
    event.stderr (diagnostic.debug_dump (classified_type recv_buffer d)) :: r.trace, r.crashed⟩

/-- A sample lease row whose router field is not an IPv4 address. -/
def sample_bad_row : lease_row :=
  ⟨some "192.0.2.10", some "192.0.2.256", some "192.0.2.1", 24, 3600⟩

/-- A sample lease row whose router column is SQL NULL: `sqlite3_column_text` returns
a null pointer for it. -/
def sample_null_row : lease_row := ⟨some "192.0.2.10", none, some "192.0.2.1", 24, 3600⟩

/-- A sample REQUEST addressed to the server 192.0.2.1 without option 50. -/
def sample_request_no_ip : dhcp_msg :=
  sample_msg (sample_datagram [53, 1, 3, 54, 4, 192, 0, 2, 1, 255]) 3

/-- The sixteen uppercase hexadecimal digits. -/
def upper_hex : List Char := "0123456789ABCDEF".data

/-- A sample environment whose database holds the specification's lease record for
every hardware address. -/
def sample_lease_env : Env := sample_env (query_result.row (sample_row 24)) shl_one_mod32

/-- A 242-byte datagram whose only option is an option 53 with length 0, ending
exactly at the end of the datagram. -/
def sample_short_type : List Nat := sample_datagram [53, 0]

/-- A 256-byte REQUEST addressed to 192.0.2.1 that asks for 192.0.2.10. -/
def sample_full_request : List Nat :=
  sample_datagram [53, 1, 3, 54, 4, 192, 0, 2, 1, 50, 4, 192, 0, 2, 10, 255]

/-- A 252-byte REQUEST addressed to 192.0.2.1 whose last option is an option 50 with
length 1 and the single data byte 192, ending exactly at the end of the datagram. -/
def sample_short_ip : List Nat :=
  sample_datagram [53, 1, 3, 54, 4, 192, 0, 2, 1, 50, 1, 192]

/-- A datagram with two options 53 (types 3 and 7) and two options 50. -/
def sample_repeated : List Nat :=
  sample_datagram [53, 1, 3, 53, 1, 7, 50, 4, 1, 1, 1, 1, 50, 4, 2, 2, 2, 2, 255]

/-- How the three `inet_pton` calls of a handler on a row end. -/
inductive row_outcome
  | null_read
  | invalid
  | valid (address routers nameservers : in_addr)
deriving DecidableEq, Repr

/-- The three `inet_pton` calls that both handlers make on a row, in the order
address, routers, nameservers, each made only when the one before returned 1: the
first null pointer stops the process, the first call that returns 0 jumps to
`invalid_lease_entry`. -/
def parse_row (r : lease_row) : row_outcome :=
  match inet_pton r.address with
  | pton_result.fault => row_outcome.null_read
  | pton_result.failure => row_outcome.invalid
  | pton_result.success address =>
  match inet_pton r.routers with
  | pton_result.fault => row_outcome.null_read
  | pton_result.failure => row_outcome.invalid
  | pton_result.success routers =>
  match inet_pton r.nameservers with
  | pton_result.fault => row_outcome.null_read
  | pton_result.failure => row_outcome.invalid
  | pton_result.success nameservers => row_outcome.valid address routers nameservers

set_option maxRecDepth 100000

/-! ## Lemmas on buffers -/

theorem length_bytes_at (b : Buf) (n : Nat) : ∀ off, (bytes_at b off n).length = n := by
  induction n with
  | zero => intro off; rfl
  | succ n ih => intro off; simp [bytes_at, ih]

theorem bytes_at_add (b : Buf) (n m : Nat) :
    ∀ off, bytes_at b off (n + m) = bytes_at b off n ++ bytes_at b (off + n) m := by
  induction n with
  | zero => intro off; simp [bytes_at]
  | succ n ih =>
    intro off
    have h : n + 1 + m = (n + m) + 1 := by omega
    rw [h]
    simp only [bytes_at, ih, List.cons_append]
    have h2 : off + 1 + n = off + (n + 1) := by omega
    rw [h2]

theorem bytes_at_congr (b c : Buf) (n : Nat) :
    ∀ off, (∀ j, off ≤ j → j < off + n → b j = c j) → bytes_at b off n = bytes_at c off n := by
  induction n with
  | zero => intro off _; rfl
  | succ n ih =>
    intro off h
    simp only [bytes_at]
    rw [h off (Nat.le_refl _) (by omega), ih (off + 1) (fun j h1 h2 => h j (by omega) (by omega))]

theorem store_bytes_apply_lt (vs : List Nat) :
    ∀ (b : Buf) (i j : Nat), j < i → store_bytes b i vs j = b j := by
  induction vs with
  | nil => intro b i j _; rfl
  | cons v vs ih =>
    intro b i j h
    simp only [store_bytes]
    rw [ih _ _ _ (by omega)]
    simp only [store]
    rw [if_neg (by omega)]

theorem bytes_at_store_bytes_self (vs : List Nat) :
    ∀ (b : Buf) (i : Nat), bytes_at (store_bytes b i vs) i vs.length = vs := by
  induction vs with
  | nil => intro b i; rfl
  | cons v vs ih =>
    intro b i
    simp only [store_bytes, List.length_cons, bytes_at]
    rw [ih, store_bytes_apply_lt _ _ _ _ (Nat.lt_succ_self i)]
    simp [store]

theorem bytes_at_store_bytes_lt (vs : List Nat) (b : Buf) (i off n : Nat) (h : off + n ≤ i) :
    bytes_at (store_bytes b i vs) off n = bytes_at b off n :=
  bytes_at_congr _ _ _ _ (fun j _ h2 => store_bytes_apply_lt vs b i j (by omega))

theorem drop_bytes_at (b : Buf) (k : Nat) :
    ∀ off n, (bytes_at b off n).drop k = bytes_at b (off + k) (n - k) := by
  induction k with
  | zero => intro off n; simp
  | succ k ih =>
    intro off n
    cases n with
    | zero => simp [bytes_at]
    | succ n =>
      simp only [bytes_at, List.drop_succ_cons, ih]
      have h1 : off + 1 + k = off + (k + 1) := by omega
      have h2 : n + 1 - (k + 1) = n - k := by omega
      rw [h1, h2]

theorem take_bytes_at (b : Buf) (k : Nat) :
    ∀ off n, k ≤ n → (bytes_at b off n).take k = bytes_at b off k := by
  induction k with
  | zero => intro off n _; simp [bytes_at]
  | succ k ih =>
    intro off n h
    cases n with
    | zero => omega
    | succ n => simp only [bytes_at, List.take_succ_cons, ih (off + 1) n (by omega)]

theorem sent_do_sendto (env : Env) (b : Buf) (n : Nat) (what : String) :
    sent (do_sendto env b n what) = [bytes_at b 0 n] := by
  unfold do_sendto
  split <;> simp [sent]

theorem lookups_do_sendto (env : Env) (b : Buf) (n : Nat) (what : String) :
    lookups (do_sendto env b n what) = [] := by
  unfold do_sendto
  split <;> simp [lookups]

theorem length_htonl (v : Nat) : (htonl v).length = 4 := rfl

theorem length_netmask (undef : Int → Int) (p : Nat) :
    (netmask_from_prefixlen undef p).length = 4 := rfl

/-- The bytes a reply transmits: 240 header bytes followed by the option bytes stored
at offset 240. -/
theorem bytes_at_reply (hb : Buf) (opts : List Nat) :
    bytes_at (store_bytes hb DHCP_MSG_F_OPTIONS opts) 0 (DHCP_MSG_HDRLEN + opts.length) =
      bytes_at hb 0 240 ++ opts := by
  rw [bytes_at_add, DHCP_MSG_HDRLEN, DHCP_MSG_F_OPTIONS, Nat.zero_add,
    bytes_at_store_bytes_self, bytes_at_store_bytes_lt _ _ _ _ _ (by omega)]

/-- The header bytes of a reply do not depend on what the send buffer held before. -/
theorem reply_header_indep (sb sb2 original : Buf) (server_id : in_addr)
    (yiaddr : Option in_addr) :
    bytes_at (reply_header_buf sb original server_id yiaddr) 0 240 =
      bytes_at (reply_header_buf sb2 original server_id yiaddr) 0 240 := by
  apply bytes_at_congr
  intro j _ hj
  have hm : ∀ s : Buf, memset s 0 DHCP_MSG_LEN j = 0 := by
    intro s
    simp only [memset, DHCP_MSG_LEN]
    rw [if_pos (by omega)]
  cases yiaddr <;>
    simp only [reply_header_buf, COPY_ARRAY, store_in_addr, in_addr.bytes, List.take,
      store_bytes, store, dhcp_msg_prepare, hm]

/-! ## The netmask -/

theorem netmask_from_prefixlen_of_pos (undef : Int → Int) (p : Nat) (h1 : 1 ≤ p) (h2 : p ≤ 32) :
    netmask_from_prefixlen undef p = htonl (top_bits p) := by
  interval_cases p <;>
    simp [netmask_from_prefixlen, shl_one, to_uint32, top_bits, htonl]

/-! ## What the handlers build -/

theorem discover_cb_row (env : Env) (sb : Buf) (msg : dhcp_msg) (r : lease_row)
    (a rt ns : in_addr) (h : env.leasedb msg.chaddr = query_result.row r)
    (ha : inet_pton r.address = pton_result.success a)
    (hr : inet_pton r.routers = pton_result.success rt)
    (hn : inet_pton r.nameservers = pton_result.success ns) :
    discover_cb env sb msg =
      ⟨store_bytes (reply_header_buf sb msg.data env.server_id (some a)) DHCP_MSG_F_OPTIONS
          (lease_options 2 (netmask_from_prefixlen env.shl_undef (to_uint8 r.prefixlen)) rt
            env.server_id (to_uint32 r.leasetime) ns),
        event.lookup msg.chaddr :: do_sendto env
          (store_bytes (reply_header_buf sb msg.data env.server_id (some a)) DHCP_MSG_F_OPTIONS
            (lease_options 2 (netmask_from_prefixlen env.shl_undef (to_uint8 r.prefixlen)) rt
              env.server_id (to_uint32 r.leasetime) ns)) 274 "Could not send DHCPOFFER",
        false⟩ := by
  unfold discover_cb
  rw [h]
  simp only [ha, hr, hn]
  simp [DHCP_OPT_NEXT, store, COPY_ARRAY, store_in_addr, store_bytes, in_addr.bytes, htonl,
    netmask_from_prefixlen, lease_options, reply_header_buf, DHCP_MSG_F_OPTIONS,
    DHCP_MSG_HDRLEN, DHCP_OPT_MSGTYPE, DHCP_OPT_NETMASK, DHCP_OPT_ROUTER, DHCP_OPT_SERVERID,
    DHCP_OPT_LEASETIME, DHCP_OPT_DNS, DHCP_OPT_END, DHCPOFFER]

theorem length_lease_options (t : Nat) (undef : Int → Int) (p : Nat) (rt sid : in_addr)
    (lt : Nat) (ns : in_addr) :
    (lease_options t (netmask_from_prefixlen undef p) rt sid lt ns).length = 34 := rfl

/-- The datagram of an OFFER or ACK: header bytes, then the lease options. -/
theorem bytes_at_lease_reply (hb : Buf) (t : Nat) (undef : Int → Int) (p : Nat)
    (rt sid : in_addr) (lt : Nat) (ns : in_addr) :
    bytes_at (store_bytes hb DHCP_MSG_F_OPTIONS
        (lease_options t (netmask_from_prefixlen undef p) rt sid lt ns)) 0 274 =
      bytes_at hb 0 240 ++ lease_options t (netmask_from_prefixlen undef p) rt sid lt ns := by
  have h := bytes_at_reply hb (lease_options t (netmask_from_prefixlen undef p) rt sid lt ns)
  rw [length_lease_options] at h
  exact h

theorem dgram_options_append (hdr opts : List Nat) (h : hdr.length = 240) :
    dgram_options (hdr ++ opts) = opts := by
  unfold dgram_options DHCP_MSG_F_OPTIONS
  rw [← h]
  exact List.drop_left hdr opts

theorem dgram_field_append (b : Buf) (opts : List Nat) (off : Nat) (h : off + 4 ≤ 240) :
    ((bytes_at b 0 240 ++ opts).drop off).take 4 = [b off, b (off + 1), b (off + 2), b (off + 3)] := by
  rw [List.drop_append_of_le_length (by rw [length_bytes_at]; omega), drop_bytes_at,
    List.take_append_of_le_length (by rw [length_bytes_at]; omega),
    take_bytes_at _ _ _ _ (by omega)]
  simp [bytes_at]

theorem reply_header_yiaddr (sb orig : Buf) (sid a : in_addr) (opts : List Nat) :
    dgram_yiaddr (bytes_at (reply_header_buf sb orig sid (some a)) 0 240 ++ opts) = a.bytes := by
  unfold dgram_yiaddr DHCP_MSG_F_YIADDR
  rw [dgram_field_append _ _ _ (by omega)]
  simp [reply_header_buf, store_in_addr, store_bytes, store, in_addr.bytes, DHCP_MSG_F_YIADDR]

theorem reply_header_yiaddr_none (sb orig : Buf) (sid : in_addr) (opts : List Nat) :
    dgram_yiaddr (bytes_at (reply_header_buf sb orig sid none) 0 240 ++ opts) = [0, 0, 0, 0] := by
  unfold dgram_yiaddr DHCP_MSG_F_YIADDR
  rw [dgram_field_append _ _ _ (by omega)]
  simp [reply_header_buf, COPY_ARRAY, store_bytes, store, in_addr.bytes, dhcp_msg_prepare,
    memset, DHCP_MSG_F_SIADDR, DHCP_MSG_F_YIADDR, DHCP_MSG_F_OP, DHCP_MSG_F_HTYPE, DHCP_MSG_F_HLEN,
    DHCP_MSG_F_XID, DHCP_MSG_F_FLAGS, DHCP_MSG_F_GIADDR, DHCP_MSG_F_CHADDR, DHCP_MSG_F_MAGIC,
    DHCP_MSG_LEN]

theorem reply_header_siaddr (sb orig : Buf) (sid : in_addr) (yi : Option in_addr)
    (opts : List Nat) :
    dgram_siaddr (bytes_at (reply_header_buf sb orig sid yi) 0 240 ++ opts) = sid.bytes := by
  unfold dgram_siaddr DHCP_MSG_F_SIADDR
  rw [dgram_field_append _ _ _ (by omega)]
  cases yi <;>
    simp [reply_header_buf, COPY_ARRAY, store_in_addr, store_bytes, store, in_addr.bytes,
      DHCP_MSG_F_SIADDR, DHCP_MSG_F_YIADDR]

/-- For every lease row whose three address fields parse, `discover_cb` sends exactly
one datagram of 274 bytes: `yiaddr` is the lease address, `siaddr` the server
identity, and the option region is message type 2, the netmask computed by
`netmask_from_prefixlen`, router, server identifier, lease time, DNS and END. -/
theorem discover_cb_offer (env : Env) (sb : Buf) (msg : dhcp_msg) (r : lease_row)
    (a rt ns : in_addr) (h : env.leasedb msg.chaddr = query_result.row r)
    (ha : inet_pton r.address = pton_result.success a)
    (hr : inet_pton r.routers = pton_result.success rt)
    (hn : inet_pton r.nameservers = pton_result.success ns) :
    ∃ d, sent (discover_cb env sb msg).trace = [d] ∧ d.length = 274 ∧
      dgram_yiaddr d = a.bytes ∧ dgram_siaddr d = env.server_id.bytes ∧
      dgram_options d = lease_options 2
        (netmask_from_prefixlen env.shl_undef (to_uint8 r.prefixlen)) rt env.server_id
        (to_uint32 r.leasetime) ns ∧
      d.getLast? = some 255 := by
  rw [discover_cb_row env sb msg r a rt ns h ha hr hn]
  refine ⟨_, by simp only [sent, sent_do_sendto]; rfl, ?_, ?_, ?_, ?_, ?_⟩
  · exact length_bytes_at _ _ _
  · rw [bytes_at_lease_reply]; exact reply_header_yiaddr _ _ _ _ _
  · rw [bytes_at_lease_reply]; exact reply_header_siaddr _ _ _ _ _
  · rw [bytes_at_lease_reply]; exact dgram_options_append _ _ (length_bytes_at _ _ _)
  · rw [bytes_at_lease_reply]
    unfold lease_options
    rw [← List.append_assoc, List.getLast?_concat]

/-! ## The option loops -/

theorem last_option_nil (c : Nat) : last_option c [] = none := rfl

theorem last_option_cons (c : Nat) (o : dhcp_opt) (l : List dhcp_opt) :
    last_option c (o :: l) =
      (last_option c l).orElse (fun _ => if o.code = c then some o.data else none) := by
  unfold last_option
  by_cases h : o.code = c
  · rw [List.filter_cons_of_pos (by simpa using h), List.getLast?_cons]
    cases (List.filter (fun o => decide (o.code = c)) l).getLast? <;> simp [h]
  · rw [List.filter_cons_of_neg (by simpa using h)]
    cases (List.filter (fun o => decide (o.code = c)) l).getLast? <;> simp [h]

/-- The option loop of `request_cb` leaves in `requested_addr` and `requested_server`
the data of the last option 50 and of the last option 54 that the cursor yields, and
the initial values when there is none. -/
theorem request_cb_options_eq (b : Buf) (e : Nat) :
    ∀ (fuel pos : Nat) (ra : Option Nat) (rs : Nat),
      request_cb_options b e fuel pos ra rs =
        ((last_option 50 (dhcp_opt_list b e fuel pos)).orElse (fun _ => ra),
          (last_option 54 (dhcp_opt_list b e fuel pos)).getD rs) := by
  intro fuel
  induction fuel with
  | zero => intro pos ra rs; rfl
  | succ fuel ih =>
    intro pos ra rs
    simp only [request_cb_options, dhcp_opt_list]
    cases hnext : dhcp_opt_next b pos e with
    | none => rfl
    | some p =>
      obtain ⟨o, next⟩ := p
      simp only [last_option_cons]
      by_cases h50 : o.code = 50
      · have h54 : o.code ≠ 54 := by omega
        simp only [h50, h54, if_true, if_false, ih]
        cases last_option 50 (dhcp_opt_list b e fuel next) <;>
          cases last_option 54 (dhcp_opt_list b e fuel next) <;> rfl
      · by_cases h54 : o.code = 54
        · simp only [h50, h54, if_true, if_false, ih]
          cases last_option 50 (dhcp_opt_list b e fuel next) <;>
            cases last_option 54 (dhcp_opt_list b e fuel next) <;> rfl
        · simp only [h50, h54, if_false, ih]
          cases last_option 50 (dhcp_opt_list b e fuel next) <;>
            cases last_option 54 (dhcp_opt_list b e fuel next) <;> rfl

theorem request_cb_options_msg (msg : dhcp_msg) :
    request_cb_options msg.data msg.msg_end (msg.msg_end - DHCP_MSG_F_OPTIONS)
        DHCP_MSG_F_OPTIONS none DHCP_MSG_F_SIADDR =
      (requested_addr_ptr msg, requested_server_ptr msg) := by
  rw [request_cb_options_eq]
  unfold requested_addr_ptr requested_server_ptr msg_options
  cases last_option 50 (dhcp_opt_list msg.data msg.msg_end (msg.msg_end - DHCP_MSG_F_OPTIONS)
    DHCP_MSG_F_OPTIONS) <;> rfl

theorem request_cb_nack_eq (env : Env) (sb : Buf) (msg : dhcp_msg) (before : List event) :
    request_cb_nack env sb msg before =
      ⟨store_bytes (reply_header_buf sb msg.data env.server_id none) DHCP_MSG_F_OPTIONS
          [53, 1, 6, 255],
        before ++ do_sendto env
          (store_bytes (reply_header_buf sb msg.data env.server_id none) DHCP_MSG_F_OPTIONS
            [53, 1, 6, 255]) 244 "Could not send DHCPNAK",
        false⟩ := by
  unfold request_cb_nack
  simp [DHCP_OPT_NEXT, store, store_bytes, reply_header_buf, DHCP_MSG_F_OPTIONS,
    DHCP_MSG_HDRLEN, DHCP_OPT_MSGTYPE, DHCP_OPT_END, DHCPNAK]

theorem request_cb_row_ack (env : Env) (sb : Buf) (msg : dhcp_msg) (r : lease_row)
    (a rt ns : in_addr) (ra : Nat)
    (hserver : load_in_addr msg.data (requested_server_ptr msg) = env.server_id)
    (hra : requested_addr_ptr msg = some ra) (hreq : bytes_at msg.data ra 4 = a.bytes)
    (h : env.leasedb msg.chaddr = query_result.row r)
    (ha : inet_pton r.address = pton_result.success a)
    (hr : inet_pton r.routers = pton_result.success rt)
    (hn : inet_pton r.nameservers = pton_result.success ns) :
    request_cb env sb msg =
      ⟨store_bytes (reply_header_buf sb msg.data env.server_id (some a)) DHCP_MSG_F_OPTIONS
          (lease_options 5 (netmask_from_prefixlen env.shl_undef (to_uint8 r.prefixlen)) rt
            env.server_id (to_uint32 r.leasetime) ns),
        event.lookup msg.chaddr :: do_sendto env
          (store_bytes (reply_header_buf sb msg.data env.server_id (some a)) DHCP_MSG_F_OPTIONS
            (lease_options 5 (netmask_from_prefixlen env.shl_undef (to_uint8 r.prefixlen)) rt
              env.server_id (to_uint32 r.leasetime) ns)) 274 "Could not send DHCPACK",
        false⟩ := by
  unfold request_cb
  rw [request_cb_options_msg]
  simp only [hserver, hra, h, ha, hr, hn, hreq, ne_eq, not_true_eq_false, if_false]
  simp [DHCP_OPT_NEXT, store, COPY_ARRAY, store_in_addr, store_bytes, in_addr.bytes, htonl,
    netmask_from_prefixlen, lease_options, reply_header_buf, DHCP_MSG_F_OPTIONS,
    DHCP_MSG_HDRLEN, DHCP_OPT_MSGTYPE, DHCP_OPT_NETMASK, DHCP_OPT_ROUTER, DHCP_OPT_SERVERID,
    DHCP_OPT_LEASETIME, DHCP_OPT_DNS, DHCP_OPT_END, DHCPACK]

theorem request_cb_row_nak (env : Env) (sb : Buf) (msg : dhcp_msg) (r : lease_row)
    (a rt ns : in_addr) (ra : Nat)
    (hserver : load_in_addr msg.data (requested_server_ptr msg) = env.server_id)
    (hra : requested_addr_ptr msg = some ra) (hreq : bytes_at msg.data ra 4 ≠ a.bytes)
    (h : env.leasedb msg.chaddr = query_result.row r)
    (ha : inet_pton r.address = pton_result.success a)
    (hr : inet_pton r.routers = pton_result.success rt)
    (hn : inet_pton r.nameservers = pton_result.success ns) :
    request_cb env sb msg = request_cb_nack env sb msg [event.lookup msg.chaddr] := by
  unfold request_cb
  rw [request_cb_options_msg]
  have hreq2 : a.bytes ≠ bytes_at msg.data ra 4 := fun hc => hreq hc.symm
  simp only [hserver, hra, h, ha, hr, hn, hreq2, ne_eq, not_true_eq_false, not_false_eq_true,
    if_false, if_true]

theorem request_cb_done (env : Env) (sb : Buf) (msg : dhcp_msg)
    (hserver : load_in_addr msg.data (requested_server_ptr msg) = env.server_id)
    (h : env.leasedb msg.chaddr = query_result.done) :
    request_cb env sb msg = request_cb_nack env sb msg [event.lookup msg.chaddr] := by
  unfold request_cb
  rw [request_cb_options_msg]
  simp only [hserver, h, ne_eq, not_true_eq_false, if_false]

theorem sent_append (xs ys : List event) : sent (xs ++ ys) = sent xs ++ sent ys := by
  induction xs with
  | nil => rfl
  | cons x xs ih => cases x <;> simp [sent, ih]

/-- The minimal NAK: one datagram of 244 bytes whose option region is 53, 1, 6, 255,
with a zero `yiaddr`, whatever was logged before. -/
theorem request_cb_nack_sent (env : Env) (sb : Buf) (msg : dhcp_msg) (before : List event)
    (hb : sent before = []) :
    ∃ d, sent (request_cb_nack env sb msg before).trace = [d] ∧ d.length = 244 ∧
      dgram_options d = [53, 1, 6, 255] ∧ dgram_yiaddr d = [0, 0, 0, 0] ∧
      dgram_siaddr d = env.server_id.bytes ∧ d.getLast? = some 255 ∧
      (request_cb_nack env sb msg before).crashed = false := by
  rw [request_cb_nack_eq]
  have hd := bytes_at_reply (reply_header_buf sb msg.data env.server_id none) [53, 1, 6, 255]
  have hd2 : bytes_at (store_bytes (reply_header_buf sb msg.data env.server_id none)
      DHCP_MSG_F_OPTIONS [53, 1, 6, 255]) 0 244 =
      bytes_at (reply_header_buf sb msg.data env.server_id none) 0 240 ++ [53, 1, 6, 255] := hd
  refine ⟨_, by simp only [sent_append, hb, sent_do_sendto]; rfl, ?_, ?_, ?_, ?_, ?_, rfl⟩
  · exact length_bytes_at _ _ _
  · rw [hd2]; exact dgram_options_append _ _ (length_bytes_at _ _ _)
  · rw [hd2]; exact reply_header_yiaddr_none _ _ _ _
  · rw [hd2]; exact reply_header_siaddr _ _ _ _ _
  · rw [hd2, show ([53, 1, 6, 255] : List Nat) = [53, 1, 6] ++ [255] from rfl,
      ← List.append_assoc, List.getLast?_concat]

/-! ## DISCOVER and REQUEST -/

/-- C1 (at the failing input): for the lease row {192.0.2.10, prefix length 0, router
192.0.2.1, nameserver 192.0.2.1, lease time 3600}, on a platform that takes shift
counts modulo 32, `discover_cb` sends one OFFER whose netmask option carries
255.255.255.255, not the netmask 0.0.0.0 of prefix length 0; the rest of the
datagram is as the claim describes. -/
theorem discover_cb_offer_prefix_zero :
    ∃ d, sent (discover_cb (sample_env (query_result.row (sample_row 0)) shl_one_mod32)
        (fun _ => 0) sample_discover).trace = [d] ∧
      dgram_yiaddr d = [192, 0, 2, 10] ∧ dgram_siaddr d = [192, 0, 2, 1] ∧
      dgram_options d = [53, 1, 2, 1, 4, 255, 255, 255, 255, 3, 4, 192, 0, 2, 1,
        54, 4, 192, 0, 2, 1, 51, 4, 0, 0, 14, 16, 6, 4, 192, 0, 2, 1, 255] ∧
      htonl (top_bits 0) = [0, 0, 0, 0] := by
  obtain ⟨d, h1, _, h3, h4, h5, _⟩ :=
    discover_cb_offer (sample_env (query_result.row (sample_row 0)) shl_one_mod32)
      (fun _ => 0) sample_discover (sample_row 0) ⟨192, 0, 2, 10⟩ ⟨192, 0, 2, 1⟩
      ⟨192, 0, 2, 1⟩ rfl (by decide) (by decide) (by decide)
  refine ⟨d, h1, h3, h4, ?_, by decide⟩
  rw [h5]
  decide

/-- C2: for a REQUEST addressed to this server whose option 50 carries the address of
the valid lease row, `request_cb` sends exactly one datagram, and it is the OFFER
that `discover_cb` sends for the same message, row and server identity with the
byte at offset 242, the value of option 53, changed from 2 to 5. -/
theorem request_cb_ack_is_offer (env : Env) (sb sb2 : Buf) (msg : dhcp_msg) (r : lease_row)
    (a rt ns : in_addr) (ra : Nat)
    (hserver : load_in_addr msg.data (requested_server_ptr msg) = env.server_id)
    (hra : requested_addr_ptr msg = some ra) (hreq : bytes_at msg.data ra 4 = a.bytes)
    (h : env.leasedb msg.chaddr = query_result.row r)
    (ha : inet_pton r.address = pton_result.success a)
    (hr : inet_pton r.routers = pton_result.success rt)
    (hn : inet_pton r.nameservers = pton_result.success ns) :
    ∃ offer, sent (discover_cb env sb2 msg).trace = [offer] ∧
      sent (request_cb env sb msg).trace = [offer.set 242 5] ∧
      offer.get? 242 = some 2 ∧ offer.length = 274 := by
  rw [discover_cb_row env sb2 msg r a rt ns h ha hr hn,
    request_cb_row_ack env sb msg r a rt ns ra hserver hra hreq h ha hr hn]
  simp only [sent, sent_do_sendto, bytes_at_lease_reply]
  refine ⟨_, rfl, ?_, ?_, ?_⟩
  · rw [reply_header_indep sb sb2,
      List.set_append_right _ _ (by rw [length_bytes_at]; omega), length_bytes_at]
    rfl
  · rw [List.get?_eq_getElem?,
      List.getElem?_append_right (by rw [length_bytes_at]; omega), length_bytes_at]
    rfl
  · rw [List.length_append, length_bytes_at, length_lease_options]

/-- C2 holds at the sample REQUEST with the specification's lease record. -/
theorem request_cb_ack_is_offer_witness :
    ∃ offer, sent (discover_cb (sample_env (query_result.row (sample_row 24)) shl_one_mod32)
        (fun _ => 0) sample_request).trace = [offer] ∧
      sent (request_cb (sample_env (query_result.row (sample_row 24)) shl_one_mod32)
        (fun _ => 0) sample_request).trace = [offer.set 242 5] ∧
      offer.get? 242 = some 2 ∧ offer.length = 274 :=
  request_cb_ack_is_offer (sample_env (query_result.row (sample_row 24)) shl_one_mod32)
    (fun _ => 0) (fun _ => 0) sample_request (sample_row 24) ⟨192, 0, 2, 10⟩ ⟨192, 0, 2, 1⟩
    ⟨192, 0, 2, 1⟩ 245 (by decide) (by decide) (by decide) rfl (by decide) (by decide)
    (by decide)

/-- C3: for a REQUEST addressed to this server, when the database has no row for the
hardware address, or a row whose three addresses parse and whose address differs
from the four bytes at the data of option 50, `request_cb` sends exactly one
datagram of 244 bytes: the option region is 53, 1, 6, 255 and nothing else, `yiaddr`
is zero, and END is the last byte. -/
theorem request_cb_nak (env : Env) (sb : Buf) (msg : dhcp_msg)
    (hserver : load_in_addr msg.data (requested_server_ptr msg) = env.server_id)
    (hcase : env.leasedb msg.chaddr = query_result.done ∨
      ∃ r a rt ns ra, env.leasedb msg.chaddr = query_result.row r ∧
        inet_pton r.address = pton_result.success a ∧
        inet_pton r.routers = pton_result.success rt ∧
        inet_pton r.nameservers = pton_result.success ns ∧ requested_addr_ptr msg = some ra ∧
        bytes_at msg.data ra 4 ≠ a.bytes) :
    ∃ d, sent (request_cb env sb msg).trace = [d] ∧ d.length = 244 ∧
      dgram_options d = [53, 1, 6, 255] ∧ dgram_yiaddr d = [0, 0, 0, 0] ∧
      dgram_siaddr d = env.server_id.bytes ∧ d.getLast? = some 255 ∧
      (request_cb env sb msg).crashed = false := by
  rcases hcase with h | ⟨r, a, rt, ns, ra, h, ha, hr, hn, hra, hreq⟩
  · rw [request_cb_done env sb msg hserver h]
    exact request_cb_nack_sent env sb msg _ rfl
  · rw [request_cb_row_nak env sb msg r a rt ns ra hserver hra hreq h ha hr hn]
    exact request_cb_nack_sent env sb msg _ rfl

/-- C3 holds at the sample REQUEST when the database has no row. -/
theorem request_cb_nak_witness :
    ∃ d, sent (request_cb (sample_env query_result.done shl_one_mod32) (fun _ => 0)
        sample_request).trace = [d] ∧ d.length = 244 ∧
      dgram_options d = [53, 1, 6, 255] ∧ dgram_yiaddr d = [0, 0, 0, 0] ∧
      dgram_siaddr d = [192, 0, 2, 1] ∧ d.getLast? = some 255 ∧
      (request_cb (sample_env query_result.done shl_one_mod32) (fun _ => 0)
        sample_request).crashed = false :=
  request_cb_nak (sample_env query_result.done shl_one_mod32) (fun _ => 0) sample_request
    (by decide) (Or.inl rfl)

/-- A REQUEST for another server makes `request_cb` return before anything else. -/
theorem request_cb_other (env : Env) (sb : Buf) (msg : dhcp_msg)
    (h : load_in_addr msg.data (requested_server_ptr msg) ≠ env.server_id) :
    request_cb env sb msg = ⟨sb, [], false⟩ := by
  unfold request_cb
  rw [request_cb_options_msg]
  simp only [h, ne_eq, not_false_eq_true, if_true]

/-- C4: a REQUEST whose requested server identifier (the four bytes at the data of
the last option 54, or the `siaddr` header field when the message has no option 54)
differs from the server identity makes `request_cb` return at once: nothing is sent,
the database is not queried, the send buffer is untouched, whatever the database
holds. -/
theorem request_cb_other_server (env : Env) (sb : Buf) (msg : dhcp_msg)
    (h : load_in_addr msg.data ((last_option 54 (msg_options msg)).getD DHCP_MSG_F_SIADDR) ≠
      env.server_id) :
    (request_cb env sb msg).trace = [] ∧ (request_cb env sb msg).send_buffer = sb ∧
      (request_cb env sb msg).crashed = false := by
  have h2 : load_in_addr msg.data (requested_server_ptr msg) ≠ env.server_id := h
  rw [request_cb_other env sb msg h2]
  exact ⟨rfl, rfl, rfl⟩

/-- C4 holds at the sample REQUEST addressed to 192.0.2.2, with a database that holds
the requested lease. -/
theorem request_cb_other_server_witness :
    (request_cb (sample_env (query_result.row (sample_row 24)) shl_one_mod32) (fun _ => 0)
        sample_request_other).trace = [] ∧
      (request_cb (sample_env (query_result.row (sample_row 24)) shl_one_mod32) (fun _ => 0)
        sample_request_other).send_buffer = (fun _ => 0) ∧
      (request_cb (sample_env (query_result.row (sample_row 24)) shl_one_mod32) (fun _ => 0)
        sample_request_other).crashed = false :=
  request_cb_other_server (sample_env (query_result.row (sample_row 24)) shl_one_mod32)
    (fun _ => 0) sample_request_other (by decide)

/-- C5: when the database has no row for the hardware address, `discover_cb` sends
nothing and leaves the send buffer untouched. -/
theorem discover_cb_no_record (env : Env) (sb : Buf) (msg : dhcp_msg)
    (h : env.leasedb msg.chaddr = query_result.done) :
    sent (discover_cb env sb msg).trace = [] ∧ (discover_cb env sb msg).send_buffer = sb ∧
      (discover_cb env sb msg).crashed = false := by
  unfold discover_cb
  rw [h]
  exact ⟨rfl, rfl, rfl⟩

/-- C5 holds at the sample DISCOVER with an empty database. -/
theorem discover_cb_no_record_witness :
    sent (discover_cb (sample_env query_result.done shl_one_mod32) (fun _ => 0)
        sample_discover).trace = [] ∧
      (discover_cb (sample_env query_result.done shl_one_mod32) (fun _ => 0)
        sample_discover).send_buffer = (fun _ => 0) ∧
      (discover_cb (sample_env query_result.done shl_one_mod32) (fun _ => 0)
        sample_discover).crashed = false :=
  discover_cb_no_record (sample_env query_result.done shl_one_mod32) (fun _ => 0)
    sample_discover rfl

/-! ## The option cursor: the fuel is enough -/

theorem dhcp_opt_next_of_le (b : Buf) (pos e : Nat) (h : e ≤ pos) :
    dhcp_opt_next b pos e = none := by
  unfold dhcp_opt_next
  rw [Nat.sub_eq_zero_of_le h]
  rfl

theorem dhcp_opt_next_loop_fuel2 (b : Buf) (e : Nat) :
    ∀ (fuel fuel2 pos : Nat), e - pos ≤ fuel → e - pos ≤ fuel2 →
      dhcp_opt_next_loop b e fuel pos = dhcp_opt_next_loop b e fuel2 pos := by
  intro fuel
  induction fuel with
  | zero =>
    intro fuel2 pos h _
    have hle : e ≤ pos := by omega
    cases fuel2 with
    | zero => rfl
    | succ k => simp only [dhcp_opt_next_loop, if_pos hle]
  | succ fuel ih =>
    intro fuel2 pos h h2
    cases fuel2 with
    | zero =>
      have hle : e ≤ pos := by omega
      simp only [dhcp_opt_next_loop, if_pos hle]
    | succ k =>
      simp only [dhcp_opt_next_loop]
      by_cases hle : e ≤ pos
      · rw [if_pos hle, if_pos hle]
      · rw [if_neg hle, if_neg hle, ih k (pos + 1) (by omega) (by omega)]

/-- More fuel than the distance to `end` does not change what the cursor produces. -/
theorem dhcp_opt_next_loop_fuel (b : Buf) (e fuel pos : Nat) (h : e - pos ≤ fuel) :
    dhcp_opt_next_loop b e fuel pos = dhcp_opt_next b pos e :=
  dhcp_opt_next_loop_fuel2 b e fuel (e - pos) pos h (Nat.le_refl _)

/-- An option that the cursor produces lies between the cursor and `end` with all its
data, and the cursor moves past it. -/
theorem dhcp_opt_next_bounds (b : Buf) (e : Nat) (o : dhcp_opt) (next : Nat) :
    ∀ (fuel pos : Nat), dhcp_opt_next_loop b e fuel pos = some (o, next) →
      pos + 2 ≤ o.data ∧ o.data + o.len = next ∧ next ≤ e := by
  intro fuel
  induction fuel with
  | zero => intro pos h; simp [dhcp_opt_next_loop] at h
  | succ fuel ih =>
    intro pos h
    simp only [dhcp_opt_next_loop] at h
    split at h
    · simp at h
    · split at h
      · simp at h
      · split at h
        · have := ih (pos + 1) h
          omega
        · split at h
          · simp at h
          · simp only [Option.some.injEq, Prod.mk.injEq] at h
            obtain ⟨h1, h2⟩ := h
            subst h1
            simp only
            omega

/-- More fuel than the distance to `end` does not change the options of a loop over
the cursor: the loop ends because the cursor is exhausted, not the fuel. -/
theorem dhcp_opt_list_fuel (b : Buf) (e : Nat) :
    ∀ (fuel fuel2 pos : Nat), e - pos ≤ fuel → e - pos ≤ fuel2 →
      dhcp_opt_list b e fuel pos = dhcp_opt_list b e fuel2 pos := by
  intro fuel
  induction fuel with
  | zero =>
    intro fuel2 pos h _
    have hle : e ≤ pos := by omega
    cases fuel2 with
    | zero => rfl
    | succ k => simp only [dhcp_opt_list, dhcp_opt_next_of_le b pos e hle]
  | succ fuel ih =>
    intro fuel2 pos h h2
    cases fuel2 with
    | zero =>
      have hle : e ≤ pos := by omega
      simp only [dhcp_opt_list, dhcp_opt_next_of_le b pos e hle]
    | succ k =>
      simp only [dhcp_opt_list]
      cases hn : dhcp_opt_next b pos e with
      | none => rfl
      | some p =>
        obtain ⟨o, next⟩ := p
        have hb := dhcp_opt_next_bounds b e o next (e - pos) pos hn
        simp only
        rw [ih k next (by omega) (by omega)]

/-! ## The receive callback -/

theorem received_apply (rb : Buf) (d : List Nat) (j : Nat) (h : j < received_len d) :
    received rb d j = d.getD j 0 := by
  unfold received_len at h
  simp only [received, recvfrom]
  rw [if_pos h]

theorem magic_check_iff (rb : Buf) (d : List Nat) (hlen : 241 ≤ d.length) :
    DHCP_MSG_MAGIC_CHECK (received rb d) DHCP_MSG_F_MAGIC = true ↔
      dgram_cookie d = [99, 130, 83, 99] := by
  have hl : 241 ≤ received_len d := by unfold received_len RECV_BUF_LEN; omega
  unfold DHCP_MSG_MAGIC_CHECK DHCP_MSG_F_MAGIC dgram_cookie
  rw [received_apply rb d 236 (by omega), received_apply rb d (236 + 1) (by omega),
    received_apply rb d (236 + 2) (by omega), received_apply rb d (236 + 3) (by omega)]
  simp [and_assoc]

/-- C6: when `recvfrom` fails, or delivers a datagram shorter than 241 bytes,
`req_cb` returns at once: the result is the same for every environment and every
content, no event takes place (no lookup, no datagram, no diagnostic) and the send
buffer is untouched. -/
theorem req_cb_short (env : Env) (rb sb : Buf) (incoming : Option (List Nat))
    (h : incoming = none ∨ ∃ d, incoming = some d ∧ d.length < 241) :
    req_cb env rb sb incoming = ⟨(recvfrom rb RECV_BUF_LEN incoming).1, sb, [], false⟩ := by
  rcases h with h | ⟨d, h, hd⟩
  · subst h
    simp [req_cb, recvfrom]
  · subst h
    have h1 : ¬ (((min d.length RECV_BUF_LEN : Nat) : Int) < 0) := by omega
    have h2 : ((min d.length RECV_BUF_LEN : Nat) : Int) < 241 := by omega
    simp only [req_cb, recvfrom, h1, h2, if_true, if_false]

/-- C6 holds for the first 240 bytes of the sample DISCOVER (a correct cookie, no
room for options) and a database that holds a lease. -/
theorem req_cb_short_witness :
    req_cb (sample_env (query_result.row (sample_row 24)) shl_one_mod32) (fun _ => 0)
        (fun _ => 0) (some (sample_datagram [])) =
      ⟨(recvfrom (fun _ => 0) RECV_BUF_LEN (some (sample_datagram []))).1, fun _ => 0, [],
        false⟩ :=
  req_cb_short (sample_env (query_result.row (sample_row 24)) shl_one_mod32) (fun _ => 0)
    (fun _ => 0) (some (sample_datagram [])) (Or.inr ⟨sample_datagram [], rfl, by decide⟩)

/-- C7: a datagram of 241 or more bytes whose four bytes at offset 236 are not
0x63 0x82 0x53 0x63 makes `req_cb` return before the message type is looked for:
the result is the same for every environment, no event takes place and the send
buffer is untouched. -/
theorem req_cb_bad_cookie (env : Env) (rb sb : Buf) (d : List Nat) (hlen : 241 ≤ d.length)
    (hcookie : dgram_cookie d ≠ [99, 130, 83, 99]) :
    req_cb env rb sb (some d) = ⟨received rb d, sb, [], false⟩ := by
  have hm : DHCP_MSG_MAGIC_CHECK (received rb d) DHCP_MSG_F_MAGIC = false := by
    cases hc : DHCP_MSG_MAGIC_CHECK (received rb d) DHCP_MSG_F_MAGIC with
    | false => rfl
    | true => exact absurd ((magic_check_iff rb d hlen).1 hc) hcookie
  have h1 : ¬ (((min d.length RECV_BUF_LEN : Nat) : Int) < 0) := by omega
  have h2 : ¬ (((min d.length RECV_BUF_LEN : Nat) : Int) < 241) := by
    unfold RECV_BUF_LEN; omega
  unfold received at hm ⊢
  unfold recvfrom at hm ⊢
  simp only [req_cb, recvfrom, h1, h2, if_false]
  rw [if_pos hm]

/-- C7 holds for a 244-byte DISCOVER whose cookie bytes are all zero. -/
theorem req_cb_bad_cookie_witness :
    req_cb (sample_env (query_result.row (sample_row 24)) shl_one_mod32) (fun _ => 0)
        (fun _ => 0) (some (List.replicate 240 0 ++ [53, 1, 1, 255])) =
      ⟨received (fun _ => 0) (List.replicate 240 0 ++ [53, 1, 1, 255]), fun _ => 0, [],
        false⟩ :=
  req_cb_bad_cookie (sample_env (query_result.row (sample_row 24)) shl_one_mod32)
    (fun _ => 0) (fun _ => 0) (List.replicate 240 0 ++ [53, 1, 1, 255]) (by decide)
    (by decide)

/-- After the length and cookie checks, `req_cb` classifies the message and
dispatches on its type. -/
theorem req_cb_wellformed (env : Env) (rb sb : Buf) (d : List Nat) (hlen : 241 ≤ d.length)
    (hcookie : dgram_cookie d = [99, 130, 83, 99]) :
    req_cb env rb sb (some d) =
      if classified_type rb d = DHCPDISCOVER then
        after_handler rb d (discover_cb env sb (received_msg rb d))
      else if classified_type rb d = DHCPREQUEST then
        after_handler rb d (request_cb env sb (received_msg rb d))
      else if classified_type rb d = DHCPRELEASE then
        after_handler rb d (release_cb env sb (received_msg rb d))
      else if classified_type rb d = DHCPDECLINE then
        after_handler rb d (decline_cb env sb (received_msg rb d))
      else if classified_type rb d = DHCPINFORM then
        after_handler rb d (inform_cb env sb (received_msg rb d))
      else ⟨received rb d, sb, [event.stderr (diagnostic.debug_dump (classified_type rb d)),
        event.stderr diagnostic.broken_software_notification], false⟩ := by
  have hm := (magic_check_iff rb d hlen).2 hcookie
  have h1 : ¬ (((min d.length RECV_BUF_LEN : Nat) : Int) < 0) := by omega
  have h2 : ¬ (((min d.length RECV_BUF_LEN : Nat) : Int) < 241) := by
    unfold RECV_BUF_LEN; omega
  have h3 : ¬ (DHCP_MSG_MAGIC_CHECK (received rb d) DHCP_MSG_F_MAGIC = false) := by
    rw [hm]; exact Bool.noConfusion
  unfold received at h3
  unfold recvfrom at h3
  unfold req_cb
  simp only [recvfrom]
  rw [if_neg h1, if_neg h2, if_neg h3]
  rfl

/-- A database error makes `discover_cb` log it and return. -/
theorem discover_cb_error (env : Env) (sb : Buf) (msg : dhcp_msg)
    (h : env.leasedb msg.chaddr = query_result.prepare_error ∨
      env.leasedb msg.chaddr = query_result.bind_error ∨
      env.leasedb msg.chaddr = query_result.step_error) :
    discover_cb env sb msg =
      ⟨sb, [event.lookup msg.chaddr, event.stderr diagnostic.sqlite3_error], false⟩ := by
  unfold discover_cb
  rcases h with h | h | h <;> rw [h]

theorem discover_cb_done (env : Env) (sb : Buf) (msg : dhcp_msg)
    (h : env.leasedb msg.chaddr = query_result.done) :
    discover_cb env sb msg = ⟨sb, [event.lookup msg.chaddr], false⟩ := by
  unfold discover_cb
  rw [h]

theorem parse_row_valid (r : lease_row) (a rt ns : in_addr)
    (h : parse_row r = row_outcome.valid a rt ns) :
    inet_pton r.address = pton_result.success a ∧
      inet_pton r.routers = pton_result.success rt ∧
      inet_pton r.nameservers = pton_result.success ns := by
  unfold parse_row at h
  cases ha : inet_pton r.address <;> cases hr : inet_pton r.routers <;>
    cases hn : inet_pton r.nameservers <;> simp [ha, hr, hn] at h
  exact ⟨by rw [h.1], by rw [h.2.1], by rw [h.2.2]⟩

theorem inet_pton_text (src : String) : inet_pton (some src) ≠ pton_result.fault := by
  simp only [inet_pton]
  split <;> simp

/-- A row without a null column in which one of the three texts does not parse ends
at `invalid_lease_entry`. -/
theorem parse_row_text (r : lease_row) (h1 : r.address ≠ none) (h2 : r.routers ≠ none)
    (h3 : r.nameservers ≠ none)
    (hbad : inet_pton r.address = pton_result.failure ∨
      inet_pton r.routers = pton_result.failure ∨
      inet_pton r.nameservers = pton_result.failure) :
    parse_row r = row_outcome.invalid := by
  obtain ⟨s1, e1⟩ := Option.ne_none_iff_exists'.1 h1
  obtain ⟨s2, e2⟩ := Option.ne_none_iff_exists'.1 h2
  obtain ⟨s3, e3⟩ := Option.ne_none_iff_exists'.1 h3
  have f1 := inet_pton_text s1
  have f2 := inet_pton_text s2
  have f3 := inet_pton_text s3
  rw [e1, e2, e3] at hbad
  unfold parse_row
  rw [e1, e2, e3]
  cases ha : inet_pton (some s1) <;> cases hr : inet_pton (some s2) <;>
    cases hn : inet_pton (some s3) <;> simp_all

/-- A row on which an `inet_pton` call returns 0 before any call meets a null pointer
makes `discover_cb` log the row and return. -/
theorem discover_cb_invalid (env : Env) (sb : Buf) (msg : dhcp_msg) (r : lease_row)
    (h : env.leasedb msg.chaddr = query_result.row r)
    (hbad : parse_row r = row_outcome.invalid) :
    discover_cb env sb msg =
      ⟨sb, [event.lookup msg.chaddr, event.stderr (diagnostic.invalid_lease_entry msg.chaddr)],
        false⟩ := by
  unfold parse_row at hbad
  cases ha : inet_pton r.address <;> cases hr : inet_pton r.routers <;>
    cases hn : inet_pton r.nameservers <;>
    first
    | (exfalso; simp [ha, hr, hn] at hbad; done)
    | (unfold discover_cb; rw [h]; simp only [ha, hr, hn])

/-- A row on which an `inet_pton` call meets a null column pointer stops the process
in `discover_cb`: nothing is logged after the lookup and nothing is sent. -/
theorem discover_cb_null_read (env : Env) (sb : Buf) (msg : dhcp_msg) (r : lease_row)
    (h : env.leasedb msg.chaddr = query_result.row r)
    (hnull : parse_row r = row_outcome.null_read) :
    discover_cb env sb msg = ⟨sb, [event.lookup msg.chaddr], true⟩ := by
  unfold parse_row at hnull
  cases ha : inet_pton r.address <;> cases hr : inet_pton r.routers <;>
    cases hn : inet_pton r.nameservers <;>
    first
    | (exfalso; simp [ha, hr, hn] at hnull; done)
    | (unfold discover_cb; rw [h]; simp only [ha, hr, hn])

theorem not_mem_do_sendto (env : Env) (b : Buf) (n : Nat) (what : String) :
    event.stderr diagnostic.broken_software_notification ∉ do_sendto env b n what := by
  unfold do_sendto
  split <;> simp

theorem discover_cb_no_notification (env : Env) (sb : Buf) (msg : dhcp_msg) :
    event.stderr diagnostic.broken_software_notification ∉ (discover_cb env sb msg).trace := by
  cases h : env.leasedb msg.chaddr with
  | prepare_error => rw [discover_cb_error env sb msg (Or.inl h)]; simp
  | bind_error => rw [discover_cb_error env sb msg (Or.inr (Or.inl h))]; simp
  | step_error => rw [discover_cb_error env sb msg (Or.inr (Or.inr h))]; simp
  | done => rw [discover_cb_done env sb msg h]; simp
  | row r =>
    cases hp : parse_row r with
    | null_read => rw [discover_cb_null_read env sb msg r h hp]; simp
    | invalid => rw [discover_cb_invalid env sb msg r h hp]; simp
    | valid a rt ns =>
      obtain ⟨ha, hr, hn⟩ := parse_row_valid r a rt ns hp
      rw [discover_cb_row env sb msg r a rt ns h ha hr hn]
      simp [not_mem_do_sendto]

theorem request_cb_nack_no_notification (env : Env) (sb : Buf) (msg : dhcp_msg)
    (before : List event)
    (h : event.stderr diagnostic.broken_software_notification ∉ before) :
    event.stderr diagnostic.broken_software_notification ∉
      (request_cb_nack env sb msg before).trace := by
  rw [request_cb_nack_eq]
  simp only [List.mem_append, not_or]
  exact ⟨h, not_mem_do_sendto _ _ _ _⟩

/-- A database error makes `request_cb` log it and return without a reply. -/
theorem request_cb_error (env : Env) (sb : Buf) (msg : dhcp_msg)
    (hserver : load_in_addr msg.data (requested_server_ptr msg) = env.server_id)
    (h : env.leasedb msg.chaddr = query_result.prepare_error ∨
      env.leasedb msg.chaddr = query_result.bind_error ∨
      env.leasedb msg.chaddr = query_result.step_error) :
    request_cb env sb msg =
      ⟨sb, [event.lookup msg.chaddr, event.stderr diagnostic.sqlite3_error], false⟩ := by
  unfold request_cb
  rw [request_cb_options_msg]
  rcases h with h | h | h <;>
    simp only [hserver, h, ne_eq, not_true_eq_false, if_false]

/-- A row on which an `inet_pton` call returns 0 before any call meets a null pointer
makes `request_cb` log the row and jump to `nack`. -/
theorem request_cb_invalid (env : Env) (sb : Buf) (msg : dhcp_msg) (r : lease_row)
    (hserver : load_in_addr msg.data (requested_server_ptr msg) = env.server_id)
    (h : env.leasedb msg.chaddr = query_result.row r)
    (hbad : parse_row r = row_outcome.invalid) :
    request_cb env sb msg = request_cb_nack env sb msg
      [event.lookup msg.chaddr, event.stderr (diagnostic.invalid_lease_entry msg.chaddr)] := by
  unfold parse_row at hbad
  cases ha : inet_pton r.address <;> cases hr : inet_pton r.routers <;>
    cases hn : inet_pton r.nameservers <;>
    first
    | (exfalso; simp [ha, hr, hn] at hbad; done)
    | (unfold request_cb
       rw [request_cb_options_msg]
       simp only [hserver, h, ha, hr, hn, ne_eq, not_true_eq_false, if_false])

/-- A row on which an `inet_pton` call meets a null column pointer stops the process
in `request_cb`, for a REQUEST addressed to this server: no reply is sent. -/
theorem request_cb_null_read (env : Env) (sb : Buf) (msg : dhcp_msg) (r : lease_row)
    (hserver : load_in_addr msg.data (requested_server_ptr msg) = env.server_id)
    (h : env.leasedb msg.chaddr = query_result.row r)
    (hnull : parse_row r = row_outcome.null_read) :
    request_cb env sb msg = ⟨sb, [event.lookup msg.chaddr], true⟩ := by
  unfold parse_row at hnull
  cases ha : inet_pton r.address <;> cases hr : inet_pton r.routers <;>
    cases hn : inet_pton r.nameservers <;>
    first
    | (exfalso; simp [ha, hr, hn] at hnull; done)
    | (unfold request_cb
       rw [request_cb_options_msg]
       simp only [hserver, h, ha, hr, hn, ne_eq, not_true_eq_false, if_false])

/-- A valid row and a message without option 50 make `request_cb` compare the lease
address with the bytes at a null pointer. -/
theorem request_cb_null (env : Env) (sb : Buf) (msg : dhcp_msg) (r : lease_row)
    (a rt ns : in_addr)
    (hserver : load_in_addr msg.data (requested_server_ptr msg) = env.server_id)
    (hra : requested_addr_ptr msg = none)
    (h : env.leasedb msg.chaddr = query_result.row r)
    (ha : inet_pton r.address = pton_result.success a)
    (hr : inet_pton r.routers = pton_result.success rt)
    (hn : inet_pton r.nameservers = pton_result.success ns) :
    request_cb env sb msg = ⟨sb, [event.lookup msg.chaddr], true⟩ := by
  unfold request_cb
  rw [request_cb_options_msg]
  simp only [hserver, hra, h, ha, hr, hn, ne_eq, not_true_eq_false, if_false]

theorem request_cb_no_notification (env : Env) (sb : Buf) (msg : dhcp_msg) :
    event.stderr diagnostic.broken_software_notification ∉ (request_cb env sb msg).trace := by
  by_cases hserver : load_in_addr msg.data (requested_server_ptr msg) = env.server_id
  · cases h : env.leasedb msg.chaddr with
    | prepare_error => rw [request_cb_error env sb msg hserver (Or.inl h)]; simp
    | bind_error => rw [request_cb_error env sb msg hserver (Or.inr (Or.inl h))]; simp
    | step_error => rw [request_cb_error env sb msg hserver (Or.inr (Or.inr h))]; simp
    | done =>
      rw [request_cb_done env sb msg hserver h]
      exact request_cb_nack_no_notification _ _ _ _ (by simp)
    | row r =>
      cases hp : parse_row r with
      | null_read => rw [request_cb_null_read env sb msg r hserver h hp]; simp
      | invalid =>
        rw [request_cb_invalid env sb msg r hserver h hp]
        exact request_cb_nack_no_notification _ _ _ _ (by simp)
      | valid a rt ns =>
        obtain ⟨ha, hr, hn⟩ := parse_row_valid r a rt ns hp
        cases hra : requested_addr_ptr msg with
        | none =>
          rw [request_cb_null env sb msg r a rt ns hserver hra h ha hr hn]
          simp
        | some ra =>
          by_cases hreq : bytes_at msg.data ra 4 = a.bytes
          · rw [request_cb_row_ack env sb msg r a rt ns ra hserver hra hreq h ha hr hn]
            simp [not_mem_do_sendto]
          · rw [request_cb_row_nak env sb msg r a rt ns ra hserver hra hreq h ha hr hn]
            exact request_cb_nack_no_notification _ _ _ _ (by simp)
  · rw [request_cb_other env sb msg hserver]
    simp

/-- The message-type loop of `req_cb` leaves in `msg_type` the first data byte of
the last option 53 that the cursor yields, and the initial value when there is
none. -/
theorem req_cb_msg_type_eq (b : Buf) (e : Nat) :
    ∀ (fuel pos t : Nat),
      req_cb_msg_type b e fuel pos t =
        ((last_option 53 (dhcp_opt_list b e fuel pos)).map b).getD t := by
  intro fuel
  induction fuel with
  | zero => intro pos t; rfl
  | succ fuel ih =>
    intro pos t
    simp only [req_cb_msg_type, dhcp_opt_list]
    cases hnext : dhcp_opt_next b pos e with
    | none => rfl
    | some p =>
      obtain ⟨o, next⟩ := p
      simp only [last_option_cons]
      by_cases h53 : o.code = 53
      · simp only [h53, if_true, ih]
        cases last_option 53 (dhcp_opt_list b e fuel next) <;> rfl
      · simp only [h53, if_false, ih]
        cases last_option 53 (dhcp_opt_list b e fuel next) <;> rfl

/-- C8: for a datagram that passes the length and cookie checks and whose classified
message type is neither 1 (DISCOVER) nor 3 (REQUEST), `req_cb` sends nothing, makes
no lease lookup and leaves the send buffer untouched; the broken-software
notification is written exactly when the type is none of 1, 3, 4, 7, 8; and a
message in which the cursor yields no option 53 has type 0. -/
theorem req_cb_no_reply_types (env : Env) (rb sb : Buf) (d : List Nat) (hlen : 241 ≤ d.length)
    (hcookie : dgram_cookie d = [99, 130, 83, 99]) :
    (classified_type rb d ≠ 1 → classified_type rb d ≠ 3 →
      sent (req_cb env rb sb (some d)).trace = [] ∧
      lookups (req_cb env rb sb (some d)).trace = [] ∧
      (req_cb env rb sb (some d)).send_buffer = sb ∧
      (req_cb env rb sb (some d)).crashed = false) ∧
    (event.stderr diagnostic.broken_software_notification ∈ (req_cb env rb sb (some d)).trace ↔
      classified_type rb d ≠ 1 ∧ classified_type rb d ≠ 3 ∧ classified_type rb d ≠ 4 ∧
        classified_type rb d ≠ 7 ∧ classified_type rb d ≠ 8) ∧
    (last_option 53 (dhcp_opt_list (received rb d) (received_len d)
        (received_len d - DHCP_MSG_F_OPTIONS) DHCP_MSG_F_OPTIONS) = none →
      classified_type rb d = 0) := by
  rw [req_cb_wellformed env rb sb d hlen hcookie]
  simp only [DHCPDISCOVER, DHCPREQUEST, DHCPRELEASE, DHCPDECLINE, DHCPINFORM]
  refine ⟨?_, ?_, ?_⟩
  · intro h1 h3
    rw [if_neg h1, if_neg h3]
    split
    · exact ⟨rfl, rfl, rfl, rfl⟩
    · split
      · exact ⟨rfl, rfl, rfl, rfl⟩
      · split
        · exact ⟨rfl, rfl, rfl, rfl⟩
        · exact ⟨rfl, rfl, rfl, rfl⟩
  · by_cases h1 : classified_type rb d = 1
    · have hn := discover_cb_no_notification env sb (received_msg rb d)
      simp [h1, after_handler, hn]
    · by_cases h3 : classified_type rb d = 3
      · have hn := request_cb_no_notification env sb (received_msg rb d)
        simp [h3, after_handler, hn]
      · by_cases h7 : classified_type rb d = 7
        · simp [h7, after_handler, release_cb]
        · by_cases h4 : classified_type rb d = 4
          · simp [h4, after_handler, decline_cb]
          · by_cases h8 : classified_type rb d = 8
            · simp [h8, after_handler, inform_cb]
            · simp [h1, h3, h4, h7, h8]
  · intro hnone
    unfold classified_type
    rw [req_cb_msg_type_eq, hnone]
    rfl

/-- C8 holds for a RELEASE: message type 7, END. -/
theorem req_cb_no_reply_types_witness :
    (classified_type (fun _ => 0) (sample_datagram [53, 1, 7, 255]) ≠ 1 →
      classified_type (fun _ => 0) (sample_datagram [53, 1, 7, 255]) ≠ 3 →
      sent (req_cb (sample_env (query_result.row (sample_row 24)) shl_one_mod32) (fun _ => 0)
        (fun _ => 0) (some (sample_datagram [53, 1, 7, 255]))).trace = [] ∧
      lookups (req_cb (sample_env (query_result.row (sample_row 24)) shl_one_mod32)
        (fun _ => 0) (fun _ => 0) (some (sample_datagram [53, 1, 7, 255]))).trace = [] ∧
      (req_cb (sample_env (query_result.row (sample_row 24)) shl_one_mod32) (fun _ => 0)
        (fun _ => 0) (some (sample_datagram [53, 1, 7, 255]))).send_buffer = (fun _ => 0) ∧
      (req_cb (sample_env (query_result.row (sample_row 24)) shl_one_mod32) (fun _ => 0)
        (fun _ => 0) (some (sample_datagram [53, 1, 7, 255]))).crashed = false) ∧
    (event.stderr diagnostic.broken_software_notification ∈
        (req_cb (sample_env (query_result.row (sample_row 24)) shl_one_mod32) (fun _ => 0)
          (fun _ => 0) (some (sample_datagram [53, 1, 7, 255]))).trace ↔
      classified_type (fun _ => 0) (sample_datagram [53, 1, 7, 255]) ≠ 1 ∧
        classified_type (fun _ => 0) (sample_datagram [53, 1, 7, 255]) ≠ 3 ∧
        classified_type (fun _ => 0) (sample_datagram [53, 1, 7, 255]) ≠ 4 ∧
        classified_type (fun _ => 0) (sample_datagram [53, 1, 7, 255]) ≠ 7 ∧
        classified_type (fun _ => 0) (sample_datagram [53, 1, 7, 255]) ≠ 8) ∧
    (last_option 53 (dhcp_opt_list (received (fun _ => 0) (sample_datagram [53, 1, 7, 255]))
        (received_len (sample_datagram [53, 1, 7, 255]))
        (received_len (sample_datagram [53, 1, 7, 255]) - DHCP_MSG_F_OPTIONS)
        DHCP_MSG_F_OPTIONS) = none →
      classified_type (fun _ => 0) (sample_datagram [53, 1, 7, 255]) = 0) :=
  req_cb_no_reply_types (sample_env (query_result.row (sample_row 24)) shl_one_mod32)
    (fun _ => 0) (fun _ => 0) (sample_datagram [53, 1, 7, 255]) (by decide) (by decide)

/-! ## The netmask of a lease -/

/-- C9 (at the failing input): for prefix length 0 the shift count is 32, the width
of `int`, for which C defines no result.  On a platform that takes the count modulo
32 the function returns 255.255.255.255, where the value with no bit set is
0.0.0.0; with a shift that produces 0 it returns 0.0.0.0.  For the prefix lengths
1 to 32 the result is the top-bits mask on every platform. -/
theorem netmask_from_prefixlen_zero :
    netmask_from_prefixlen shl_one_mod32 0 = [255, 255, 255, 255] ∧
      htonl (top_bits 0) = [0, 0, 0, 0] ∧
      netmask_from_prefixlen (fun _ => 0) 0 = [0, 0, 0, 0] ∧
      ∀ (undef : Int → Int) (p : Nat), 1 ≤ p → p ≤ 32 →
        netmask_from_prefixlen undef p = htonl (top_bits p) :=
  ⟨by decide, by decide, by decide, netmask_from_prefixlen_of_pos⟩

/-- The ACK: one datagram of 274 bytes with the lease address in `yiaddr` and the
lease options with message type 5. -/
theorem request_cb_ack (env : Env) (sb : Buf) (msg : dhcp_msg) (r : lease_row)
    (a rt ns : in_addr) (ra : Nat)
    (hserver : load_in_addr msg.data (requested_server_ptr msg) = env.server_id)
    (hra : requested_addr_ptr msg = some ra) (hreq : bytes_at msg.data ra 4 = a.bytes)
    (h : env.leasedb msg.chaddr = query_result.row r)
    (ha : inet_pton r.address = pton_result.success a)
    (hr : inet_pton r.routers = pton_result.success rt)
    (hn : inet_pton r.nameservers = pton_result.success ns) :
    ∃ d, sent (request_cb env sb msg).trace = [d] ∧ d.length = 274 ∧
      dgram_yiaddr d = a.bytes ∧ dgram_siaddr d = env.server_id.bytes ∧
      dgram_options d = lease_options 5
        (netmask_from_prefixlen env.shl_undef (to_uint8 r.prefixlen)) rt env.server_id
        (to_uint32 r.leasetime) ns := by
  rw [request_cb_row_ack env sb msg r a rt ns ra hserver hra hreq h ha hr hn]
  refine ⟨_, by simp only [sent, sent_do_sendto]; rfl, ?_, ?_, ?_, ?_⟩
  · exact length_bytes_at _ _ _
  · rw [bytes_at_lease_reply]; exact reply_header_yiaddr _ _ _ _ _
  · rw [bytes_at_lease_reply]; exact reply_header_siaddr _ _ _ _ _
  · rw [bytes_at_lease_reply]; exact dgram_options_append _ _ (length_bytes_at _ _ _)

/-- C10 (counterexample): the row with stored prefix length 280, which is outside
0..32, is not treated as invalid: `discover_cb` answers the sample DISCOVER with one
OFFER whose netmask option carries 255.255.255.0, the netmask of 280 mod 256 = 24. -/
theorem discover_cb_prefix_280 :
    ¬ ((0 : Int) ≤ (sample_row 280).prefixlen ∧ (sample_row 280).prefixlen ≤ 32) ∧
      ∃ d, sent (discover_cb (sample_env (query_result.row (sample_row 280)) shl_one_mod32)
          (fun _ => 0) sample_discover).trace = [d] ∧
        dgram_yiaddr d = [192, 0, 2, 10] ∧
        dgram_options d = [53, 1, 2, 1, 4, 255, 255, 255, 0, 3, 4, 192, 0, 2, 1,
          54, 4, 192, 0, 2, 1, 51, 4, 0, 0, 14, 16, 6, 4, 192, 0, 2, 1, 255] := by
  refine ⟨by decide, ?_⟩
  obtain ⟨d, h1, _, h3, _, h5, _⟩ :=
    discover_cb_offer (sample_env (query_result.row (sample_row 280)) shl_one_mod32)
      (fun _ => 0) sample_discover (sample_row 280) ⟨192, 0, 2, 10⟩ ⟨192, 0, 2, 1⟩
      ⟨192, 0, 2, 1⟩ rfl (by decide) (by decide) (by decide)
  refine ⟨d, h1, h3, ?_⟩
  rw [h5]
  decide

/-- C10 (amended): a row whose stored prefix length lies outside 0..32 is served like
any other row whose three address fields parse.  The stored value is reduced to
eight bits; `discover_cb` sends one OFFER and `request_cb`, for a REQUEST addressed
to this server whose option 50 carries the lease address, one ACK, each with the
netmask option computed from the reduced value, which is the top-bits mask when the
reduced value lies in 1..32; a REQUEST whose option 50 carries another address gets
the NAK. -/
theorem lease_prefixlen_unchecked (env : Env) (sb : Buf) (msg : dhcp_msg) (r : lease_row)
    (a rt ns : in_addr) (h : env.leasedb msg.chaddr = query_result.row r)
    (ha : inet_pton r.address = pton_result.success a)
    (hr : inet_pton r.routers = pton_result.success rt)
    (hn : inet_pton r.nameservers = pton_result.success ns)
    (hp : r.prefixlen < 0 ∨ 32 < r.prefixlen) :
    (∃ d, sent (discover_cb env sb msg).trace = [d] ∧ dgram_yiaddr d = a.bytes ∧
      dgram_options d = lease_options 2
        (netmask_from_prefixlen env.shl_undef (to_uint8 r.prefixlen)) rt env.server_id
        (to_uint32 r.leasetime) ns) ∧
    (∀ ra, load_in_addr msg.data (requested_server_ptr msg) = env.server_id →
      requested_addr_ptr msg = some ra → bytes_at msg.data ra 4 = a.bytes →
      ∃ d, sent (request_cb env sb msg).trace = [d] ∧ dgram_yiaddr d = a.bytes ∧
        dgram_options d = lease_options 5
          (netmask_from_prefixlen env.shl_undef (to_uint8 r.prefixlen)) rt env.server_id
          (to_uint32 r.leasetime) ns) ∧
    (∀ ra, load_in_addr msg.data (requested_server_ptr msg) = env.server_id →
      requested_addr_ptr msg = some ra → bytes_at msg.data ra 4 ≠ a.bytes →
      ∃ d, sent (request_cb env sb msg).trace = [d] ∧ dgram_options d = [53, 1, 6, 255]) ∧
    (1 ≤ to_uint8 r.prefixlen → to_uint8 r.prefixlen ≤ 32 →
      netmask_from_prefixlen env.shl_undef (to_uint8 r.prefixlen) =
        htonl (top_bits (to_uint8 r.prefixlen))) := by
  have _ := hp
  refine ⟨?_, ?_, ?_, netmask_from_prefixlen_of_pos _ _⟩
  · obtain ⟨d, h1, _, h3, _, h5, _⟩ := discover_cb_offer env sb msg r a rt ns h ha hr hn
    exact ⟨d, h1, h3, h5⟩
  · intro ra hserver hra hreq
    obtain ⟨d, h1, _, h3, _, h5⟩ := request_cb_ack env sb msg r a rt ns ra hserver hra hreq h
      ha hr hn
    exact ⟨d, h1, h3, h5⟩
  · intro ra hserver hra hreq
    rw [request_cb_row_nak env sb msg r a rt ns ra hserver hra hreq h ha hr hn]
    obtain ⟨d, h1, _, h3, _⟩ := request_cb_nack_sent env sb msg [event.lookup msg.chaddr] rfl
    exact ⟨d, h1, h3⟩

/-- C10 (amended) holds at the sample REQUEST with the stored prefix length 280. -/
theorem lease_prefixlen_unchecked_witness :
    (∃ d, sent (discover_cb (sample_env (query_result.row (sample_row 280)) shl_one_mod32)
        (fun _ => 0) sample_request).trace = [d] ∧ dgram_yiaddr d = [192, 0, 2, 10] ∧
      dgram_options d = lease_options 2 [255, 255, 255, 0] ⟨192, 0, 2, 1⟩ ⟨192, 0, 2, 1⟩
        3600 ⟨192, 0, 2, 1⟩) ∧
    (∃ d, sent (request_cb (sample_env (query_result.row (sample_row 280)) shl_one_mod32)
        (fun _ => 0) sample_request).trace = [d] ∧ dgram_yiaddr d = [192, 0, 2, 10] ∧
      dgram_options d = lease_options 5 [255, 255, 255, 0] ⟨192, 0, 2, 1⟩ ⟨192, 0, 2, 1⟩
        3600 ⟨192, 0, 2, 1⟩) := by
  have w := lease_prefixlen_unchecked
    (sample_env (query_result.row (sample_row 280)) shl_one_mod32) (fun _ => 0)
    sample_request (sample_row 280) ⟨192, 0, 2, 10⟩ ⟨192, 0, 2, 1⟩ ⟨192, 0, 2, 1⟩ rfl
    (by decide) (by decide) (by decide) (Or.inr (by decide))
  exact ⟨w.1, w.2.1 245 (by decide) (by decide) (by decide)⟩

/-! ## Invalid rows and database errors -/

/-- The datagram of the NAK does not depend on what the send buffer held, on the
database or on `sendto`: only on the request and the server identity. -/
theorem sent_request_cb_nack (env : Env) (sb : Buf) (msg : dhcp_msg) (before : List event) :
    sent (request_cb_nack env sb msg before).trace =
      sent before ++ [bytes_at (reply_header_buf (fun _ => 0) msg.data env.server_id none) 0 240
        ++ [53, 1, 6, 255]] := by
  rw [request_cb_nack_eq]
  have hd : bytes_at (store_bytes (reply_header_buf sb msg.data env.server_id none)
      DHCP_MSG_F_OPTIONS [53, 1, 6, 255]) 0 244 =
      bytes_at (reply_header_buf sb msg.data env.server_id none) 0 240 ++ [53, 1, 6, 255] :=
    bytes_at_reply (reply_header_buf sb msg.data env.server_id none) [53, 1, 6, 255]
  simp only [sent_append, sent_do_sendto, hd]
  rw [reply_header_indep sb (fun _ => 0)]

/-- A row on which an `inet_pton` call returns 0 before any call meets a null pointer
is answered like an absent row: `discover_cb` sends nothing and leaves the send
buffer untouched, and `request_cb` sends what it sends when the database has no row
for the hardware address, which for a REQUEST addressed to this server is the one
minimal NAK. -/
theorem invalid_row_like_absent (env env2 : Env) (sb sb2 : Buf) (msg : dhcp_msg) (r : lease_row)
    (h : env.leasedb msg.chaddr = query_result.row r)
    (hbad : parse_row r = row_outcome.invalid)
    (h2 : env2.leasedb msg.chaddr = query_result.done)
    (hsid : env2.server_id = env.server_id) :
    sent (discover_cb env sb msg).trace = [] ∧
      sent (discover_cb env2 sb2 msg).trace = [] ∧
      (discover_cb env sb msg).send_buffer = sb ∧
      (discover_cb env sb msg).crashed = false ∧
      sent (request_cb env sb msg).trace = sent (request_cb env2 sb2 msg).trace ∧
      (request_cb env sb msg).crashed = false ∧
      (load_in_addr msg.data (requested_server_ptr msg) = env.server_id →
        ∃ d, sent (request_cb env sb msg).trace = [d] ∧ d.length = 244 ∧
          dgram_options d = [53, 1, 6, 255] ∧ dgram_yiaddr d = [0, 0, 0, 0]) := by
  refine ⟨?_, ?_, ?_, ?_, ?_, ?_, ?_⟩
  · rw [discover_cb_invalid env sb msg r h hbad]; rfl
  · rw [discover_cb_done env2 sb2 msg h2]; rfl
  · rw [discover_cb_invalid env sb msg r h hbad]
  · rw [discover_cb_invalid env sb msg r h hbad]
  · by_cases hserver : load_in_addr msg.data (requested_server_ptr msg) = env.server_id
    · rw [request_cb_invalid env sb msg r hserver h hbad,
        request_cb_done env2 sb2 msg (by rw [hsid]; exact hserver) h2,
        sent_request_cb_nack, sent_request_cb_nack, hsid]
      rfl
    · rw [request_cb_other env sb msg hserver,
        request_cb_other env2 sb2 msg (by rw [hsid]; exact hserver)]
  · by_cases hserver : load_in_addr msg.data (requested_server_ptr msg) = env.server_id
    · rw [request_cb_invalid env sb msg r hserver h hbad, request_cb_nack_eq]
    · rw [request_cb_other env sb msg hserver]
  · intro hserver
    rw [request_cb_invalid env sb msg r hserver h hbad]
    obtain ⟨d, h1, h2, h3, h4, _⟩ := request_cb_nack_sent env sb msg
      [event.lookup msg.chaddr, event.stderr (diagnostic.invalid_lease_entry msg.chaddr)] rfl
    exact ⟨d, h1, h2, h3, h4⟩

/-- The sample row whose router field is the text 192.0.2.256 is answered like an
absent row at the sample REQUEST. -/
theorem sample_bad_row_like_absent :
    sent (discover_cb (sample_env (query_result.row sample_bad_row) shl_one_mod32) (fun _ => 0)
        sample_request).trace = [] ∧
      sent (request_cb (sample_env (query_result.row sample_bad_row) shl_one_mod32)
          (fun _ => 0) sample_request).trace =
        sent (request_cb (sample_env query_result.done shl_one_mod32) (fun _ => 0)
          sample_request).trace ∧
      ∃ d, sent (request_cb (sample_env (query_result.row sample_bad_row) shl_one_mod32)
          (fun _ => 0) sample_request).trace = [d] ∧ dgram_options d = [53, 1, 6, 255] := by
  have w := invalid_row_like_absent (sample_env (query_result.row sample_bad_row) shl_one_mod32)
    (sample_env query_result.done shl_one_mod32) (fun _ => 0) (fun _ => 0) sample_request
    sample_bad_row rfl (by decide) rfl rfl
  obtain ⟨d, h1, _, h3, _⟩ := w.2.2.2.2.2.2 (by decide)
  exact ⟨w.1, w.2.2.2.2.1, d, h1, h3⟩

/-- C11 (at the failing input): the row whose router column is SQL NULL has a router
field that does not parse, and it is not handled like an absent row.
`sqlite3_column_text` returns a null pointer for the column, both handlers pass it
to `inet_pton` unchecked and the process stops there: `request_cb` sends no NAK for
the sample REQUEST, where an absent row gives the NAK.  For the rows on which a call
returns 0 before any call meets a null pointer, among them every row without a null
column in which one of the three texts does not parse, the claim holds. -/
theorem null_column_stops_handlers :
    inet_pton sample_null_row.routers = pton_result.fault ∧
      (discover_cb (sample_env (query_result.row sample_null_row) shl_one_mod32) (fun _ => 0)
        sample_request).crashed = true ∧
      (request_cb (sample_env (query_result.row sample_null_row) shl_one_mod32) (fun _ => 0)
        sample_request).crashed = true ∧
      sent (request_cb (sample_env (query_result.row sample_null_row) shl_one_mod32)
        (fun _ => 0) sample_request).trace = [] ∧
      (∃ d, sent (request_cb (sample_env query_result.done shl_one_mod32) (fun _ => 0)
          sample_request).trace = [d] ∧ dgram_options d = [53, 1, 6, 255] ∧
        (request_cb (sample_env query_result.done shl_one_mod32) (fun _ => 0)
          sample_request).crashed = false) ∧
      (∀ r : lease_row, r.address ≠ none → r.routers ≠ none → r.nameservers ≠ none →
        (inet_pton r.address = pton_result.failure ∨
          inet_pton r.routers = pton_result.failure ∨
          inet_pton r.nameservers = pton_result.failure) →
        parse_row r = row_outcome.invalid) ∧
      ∀ (env env2 : Env) (sb sb2 : Buf) (msg : dhcp_msg) (r : lease_row),
        env.leasedb msg.chaddr = query_result.row r → parse_row r = row_outcome.invalid →
        env2.leasedb msg.chaddr = query_result.done → env2.server_id = env.server_id →
        sent (discover_cb env sb msg).trace = [] ∧
          sent (discover_cb env2 sb2 msg).trace = [] ∧
          (discover_cb env sb msg).send_buffer = sb ∧
          (discover_cb env sb msg).crashed = false ∧
          sent (request_cb env sb msg).trace = sent (request_cb env2 sb2 msg).trace ∧
          (request_cb env sb msg).crashed = false ∧
          (load_in_addr msg.data (requested_server_ptr msg) = env.server_id →
            ∃ d, sent (request_cb env sb msg).trace = [d] ∧ d.length = 244 ∧
              dgram_options d = [53, 1, 6, 255] ∧ dgram_yiaddr d = [0, 0, 0, 0]) := by
  have hd := discover_cb_null_read
    (sample_env (query_result.row sample_null_row) shl_one_mod32) (fun _ => 0) sample_request
    sample_null_row rfl (by decide)
  have hr := request_cb_null_read
    (sample_env (query_result.row sample_null_row) shl_one_mod32) (fun _ => 0) sample_request
    sample_null_row (by decide) rfl (by decide)
  refine ⟨by decide, by rw [hd], by rw [hr], by rw [hr]; rfl, ?_, parse_row_text,
    invalid_row_like_absent⟩
  rw [request_cb_done (sample_env query_result.done shl_one_mod32) (fun _ => 0)
    sample_request (by decide) rfl]
  obtain ⟨d, h1, _, h3, _, _, _, h7⟩ := request_cb_nack_sent
    (sample_env query_result.done shl_one_mod32) (fun _ => 0) sample_request
    [event.lookup sample_request.chaddr] rfl
  exact ⟨d, h1, h3, h7⟩

/-- C12 (counterexample): for the sample REQUEST, addressed to this server, a step
error of the database gives no datagram, while an empty database gives the NAK. -/
theorem request_cb_step_error_silent :
    sent (request_cb (sample_env query_result.step_error shl_one_mod32) (fun _ => 0)
        sample_request).trace = [] ∧
      ∃ d, sent (request_cb (sample_env query_result.done shl_one_mod32) (fun _ => 0)
          sample_request).trace = [d] ∧ dgram_options d = [53, 1, 6, 255] := by
  refine ⟨?_, ?_⟩
  · rw [request_cb_error (sample_env query_result.step_error shl_one_mod32) (fun _ => 0)
      sample_request (by decide) (Or.inr (Or.inr rfl))]
    rfl
  · rw [request_cb_done (sample_env query_result.done shl_one_mod32) (fun _ => 0)
      sample_request (by decide) rfl]
    obtain ⟨d, h1, _, h3, _⟩ := request_cb_nack_sent
      (sample_env query_result.done shl_one_mod32) (fun _ => 0) sample_request
      [event.lookup sample_request.chaddr] rfl
    exact ⟨d, h1, h3⟩

/-- C12 (amended): when the query fails (prepare, bind or step error) the error is
logged and the request is dropped.  `discover_cb` sends nothing, as it does when
there is no row; `request_cb` sends nothing either, whether or not the REQUEST is
addressed to this server, and so no NAK.  The send buffer is untouched. -/
theorem store_error_drops_request (env : Env) (sb : Buf) (msg : dhcp_msg)
    (h : env.leasedb msg.chaddr = query_result.prepare_error ∨
      env.leasedb msg.chaddr = query_result.bind_error ∨
      env.leasedb msg.chaddr = query_result.step_error) :
    sent (discover_cb env sb msg).trace = [] ∧ (discover_cb env sb msg).send_buffer = sb ∧
      sent (request_cb env sb msg).trace = [] ∧ (request_cb env sb msg).send_buffer = sb ∧
      (request_cb env sb msg).crashed = false ∧
      (load_in_addr msg.data (requested_server_ptr msg) = env.server_id →
        (request_cb env sb msg).trace =
          [event.lookup msg.chaddr, event.stderr diagnostic.sqlite3_error]) := by
  rw [discover_cb_error env sb msg h]
  refine ⟨rfl, rfl, ?_⟩
  by_cases hserver : load_in_addr msg.data (requested_server_ptr msg) = env.server_id
  · rw [request_cb_error env sb msg hserver h]
    exact ⟨rfl, rfl, rfl, fun _ => rfl⟩
  · rw [request_cb_other env sb msg hserver]
    exact ⟨rfl, rfl, rfl, fun hs => absurd hs hserver⟩

/-- C12 (amended) holds at the sample REQUEST with a database whose step fails. -/
theorem store_error_drops_request_witness :
    sent (discover_cb (sample_env query_result.step_error shl_one_mod32) (fun _ => 0)
        sample_request).trace = [] ∧
      (discover_cb (sample_env query_result.step_error shl_one_mod32) (fun _ => 0)
        sample_request).send_buffer = (fun _ => 0) ∧
      sent (request_cb (sample_env query_result.step_error shl_one_mod32) (fun _ => 0)
        sample_request).trace = [] ∧
      (request_cb (sample_env query_result.step_error shl_one_mod32) (fun _ => 0)
        sample_request).send_buffer = (fun _ => 0) ∧
      (request_cb (sample_env query_result.step_error shl_one_mod32) (fun _ => 0)
        sample_request).crashed = false ∧
      (load_in_addr sample_request.data (requested_server_ptr sample_request) =
          (sample_env query_result.step_error shl_one_mod32).server_id →
        (request_cb (sample_env query_result.step_error shl_one_mod32) (fun _ => 0)
            sample_request).trace =
          [event.lookup sample_request.chaddr, event.stderr diagnostic.sqlite3_error]) :=
  store_error_drops_request (sample_env query_result.step_error shl_one_mod32) (fun _ => 0)
    sample_request (Or.inr (Or.inr rfl))

/-! ## The lookup key -/

theorem to_uint8_char_to_int (v : Nat) : to_uint8 (char_to_int v) = v % 256 := by
  unfold to_uint8 char_to_int
  split <;> omega

/-- With an unsigned `char` the promoted value is the byte itself; `%02hhX` prints
the same two digits. -/
theorem fmt_02hhX_char (v : Nat) : fmt_02hhX (char_to_int v) = fmt_02hhX ((v % 256 : Nat) : Int) := by
  unfold fmt_02hhX
  rw [to_uint8_char_to_int]
  have h : to_uint8 ((v % 256 : Nat) : Int) = v % 256 := by unfold to_uint8; omega
  rw [h]

theorem hex_digit_eq (n : Nat) (h : n < 16) : hex_digit n = upper_hex.getD n '0' := by
  interval_cases n <;> rfl

theorem hex_digit_toNat (n : Nat) (h : n < 16) :
    (hex_digit n).toNat = if n < 10 then 48 + n else 55 + n := by
  interval_cases n <;> rfl

theorem hex_digit_inj (m n : Nat) (hm : m < 16) (hn : n < 16) (h : hex_digit m = hex_digit n) :
    m = n := by
  have h2 := congrArg Char.toNat h
  rw [hex_digit_toNat m hm, hex_digit_toNat n hn] at h2
  split at h2 <;> split at h2 <;> omega

theorem fmt_02hhX_byte (v : Nat) (h : v < 256) :
    fmt_02hhX (char_to_int v) = [hex_digit (v / 16), hex_digit (v % 16)] := by
  unfold fmt_02hhX
  rw [to_uint8_char_to_int, Nat.mod_eq_of_lt h]

/-- The text written for six bytes: seventeen characters, nothing cut off by the
18-byte destination. -/
theorem mac_ntop_data (b : Buf) (addr : Nat) (hb : ∀ i, i < 6 → b (addr + i) < 256) :
    (mac_ntop b addr MAC_ADDRSTRLEN).data =
      [hex_digit (b addr / 16), hex_digit (b addr % 16), ':',
        hex_digit (b (addr + 1) / 16), hex_digit (b (addr + 1) % 16), ':',
        hex_digit (b (addr + 2) / 16), hex_digit (b (addr + 2) % 16), ':',
        hex_digit (b (addr + 3) / 16), hex_digit (b (addr + 3) % 16), ':',
        hex_digit (b (addr + 4) / 16), hex_digit (b (addr + 4) % 16), ':',
        hex_digit (b (addr + 5) / 16), hex_digit (b (addr + 5) % 16)] := by
  have h0 := hb 0 (by omega)
  rw [Nat.add_zero] at h0
  unfold mac_ntop MAC_ADDRSTRLEN
  rw [fmt_02hhX_byte _ h0, fmt_02hhX_byte _ (hb 1 (by omega)),
    fmt_02hhX_byte _ (hb 2 (by omega)), fmt_02hhX_byte _ (hb 3 (by omega)),
    fmt_02hhX_byte _ (hb 4 (by omega)), fmt_02hhX_byte _ (hb 5 (by omega))]
  rfl

theorem byte_of_digits (v w : Nat) (hv : v < 256) (hw : w < 256)
    (h1 : hex_digit (v / 16) = hex_digit (w / 16))
    (h2 : hex_digit (v % 16) = hex_digit (w % 16)) : v = w := by
  have e1 := hex_digit_inj _ _ (by omega) (by omega) h1
  have e2 := hex_digit_inj _ _ (by omega) (by omega) h2
  omega

/-- C13: for every six hardware-address bytes, also those from 0x80 up, `mac_ntop`
writes seventeen characters: six groups of two uppercase hexadecimal digits, high
digit first, in byte order, separated by colons; and two addresses get the same text
only when their six bytes are equal. -/
theorem mac_ntop_key (b b2 : Buf) (addr addr2 : Nat)
    (hb : ∀ i, i < 6 → b (addr + i) < 256) (hb2 : ∀ i, i < 6 → b2 (addr2 + i) < 256) :
    (mac_ntop b addr MAC_ADDRSTRLEN).data =
      [upper_hex.getD (b addr / 16) '0', upper_hex.getD (b addr % 16) '0', ':',
        upper_hex.getD (b (addr + 1) / 16) '0', upper_hex.getD (b (addr + 1) % 16) '0', ':',
        upper_hex.getD (b (addr + 2) / 16) '0', upper_hex.getD (b (addr + 2) % 16) '0', ':',
        upper_hex.getD (b (addr + 3) / 16) '0', upper_hex.getD (b (addr + 3) % 16) '0', ':',
        upper_hex.getD (b (addr + 4) / 16) '0', upper_hex.getD (b (addr + 4) % 16) '0', ':',
        upper_hex.getD (b (addr + 5) / 16) '0', upper_hex.getD (b (addr + 5) % 16) '0'] ∧
      (mac_ntop b addr MAC_ADDRSTRLEN).length = 17 ∧
      (mac_ntop b addr MAC_ADDRSTRLEN = mac_ntop b2 addr2 MAC_ADDRSTRLEN ↔
        ∀ i, i < 6 → b (addr + i) = b2 (addr2 + i)) := by
  have h0 := hb 0 (by omega)
  have h1 := hb 1 (by omega)
  have h2 := hb 2 (by omega)
  have h3 := hb 3 (by omega)
  have h4 := hb 4 (by omega)
  have h5 := hb 5 (by omega)
  have g0 := hb2 0 (by omega)
  have g1 := hb2 1 (by omega)
  have g2 := hb2 2 (by omega)
  have g3 := hb2 3 (by omega)
  have g4 := hb2 4 (by omega)
  have g5 := hb2 5 (by omega)
  rw [Nat.add_zero] at h0 g0
  have hd := mac_ntop_data b addr hb
  have hd2 := mac_ntop_data b2 addr2 hb2
  refine ⟨?_, ?_, ?_, ?_⟩
  · rw [hd, hex_digit_eq _ (show b addr / 16 < 16 by omega),
      hex_digit_eq _ (show b addr % 16 < 16 by omega),
      hex_digit_eq _ (show b (addr + 1) / 16 < 16 by omega),
      hex_digit_eq _ (show b (addr + 1) % 16 < 16 by omega),
      hex_digit_eq _ (show b (addr + 2) / 16 < 16 by omega),
      hex_digit_eq _ (show b (addr + 2) % 16 < 16 by omega),
      hex_digit_eq _ (show b (addr + 3) / 16 < 16 by omega),
      hex_digit_eq _ (show b (addr + 3) % 16 < 16 by omega),
      hex_digit_eq _ (show b (addr + 4) / 16 < 16 by omega),
      hex_digit_eq _ (show b (addr + 4) % 16 < 16 by omega),
      hex_digit_eq _ (show b (addr + 5) / 16 < 16 by omega),
      hex_digit_eq _ (show b (addr + 5) % 16 < 16 by omega)]
  · show (mac_ntop b addr MAC_ADDRSTRLEN).data.length = 17
    rw [hd]
    rfl
  · intro heq
    have hdata := congrArg String.data heq
    rw [hd, hd2] at hdata
    simp only [List.cons.injEq, and_true, true_and] at hdata
    obtain ⟨a0, a0', a1, a1', a2, a2', a3, a3', a4, a4', a5, a5'⟩ := hdata
    have e0 := byte_of_digits _ _ h0 g0 a0 a0'
    have e1 := byte_of_digits _ _ h1 g1 a1 a1'
    have e2 := byte_of_digits _ _ h2 g2 a2 a2'
    have e3 := byte_of_digits _ _ h3 g3 a3 a3'
    have e4 := byte_of_digits _ _ h4 g4 a4 a4'
    have e5 := byte_of_digits _ _ h5 g5 a5 a5'
    intro i hi
    interval_cases i
    · simpa using e0
    · exact e1
    · exact e2
    · exact e3
    · exact e4
    · exact e5
  · intro hall
    have e0 := hall 0 (by omega)
    rw [Nat.add_zero, Nat.add_zero] at e0
    apply String.ext
    rw [hd, hd2, e0, hall 1 (by omega), hall 2 (by omega), hall 3 (by omega),
      hall 4 (by omega), hall 5 (by omega)]

/-- C13 holds for the addresses FF:FE:80:7F:00:0A and FF:FE:80:7F:00:0B. -/
theorem mac_ntop_key_witness :
    (mac_ntop (fun j => [255, 254, 128, 127, 0, 10].getD j 0) 0 MAC_ADDRSTRLEN).data =
      ['F', 'F', ':', 'F', 'E', ':', '8', '0', ':', '7', 'F', ':', '0', '0', ':', '0', 'A'] ∧
      (mac_ntop (fun j => [255, 254, 128, 127, 0, 10].getD j 0) 0 MAC_ADDRSTRLEN).length = 17 ∧
      (mac_ntop (fun j => [255, 254, 128, 127, 0, 10].getD j 0) 0 MAC_ADDRSTRLEN =
          mac_ntop (fun j => [255, 254, 128, 127, 0, 11].getD j 0) 0 MAC_ADDRSTRLEN ↔
        ∀ i, i < 6 → (fun j => [255, 254, 128, 127, 0, 10].getD j 0) (0 + i) =
          (fun j => [255, 254, 128, 127, 0, 11].getD j 0) (0 + i)) :=
  mac_ntop_key (fun j => [255, 254, 128, 127, 0, 10].getD j 0)
    (fun j => [255, 254, 128, 127, 0, 11].getD j 0) 0 0 (by decide) (by decide)

/-! ## What the handlers read from the receive buffer -/

theorem sent_req_cb_discover (env : Env) (rb sb : Buf) (d : List Nat) (hlen : 241 ≤ d.length)
    (hcookie : dgram_cookie d = [99, 130, 83, 99]) (ht : classified_type rb d = 1) :
    sent (req_cb env rb sb (some d)).trace =
      sent (discover_cb env sb (received_msg rb d)).trace := by
  rw [req_cb_wellformed env rb sb d hlen hcookie]
  simp only [ht, DHCPDISCOVER, if_true, after_handler, sent]

theorem req_cb_request (env : Env) (rb sb : Buf) (d : List Nat) (hlen : 241 ≤ d.length)
    (hcookie : dgram_cookie d = [99, 130, 83, 99]) (ht : classified_type rb d = 3) :
    req_cb env rb sb (some d) = after_handler rb d (request_cb env sb (received_msg rb d)) := by
  rw [req_cb_wellformed env rb sb d hlen hcookie]
  simp [ht, DHCPDISCOVER, DHCPREQUEST]

theorem sent_req_cb_request (env : Env) (rb sb : Buf) (d : List Nat) (hlen : 241 ≤ d.length)
    (hcookie : dgram_cookie d = [99, 130, 83, 99]) (ht : classified_type rb d = 3) :
    sent (req_cb env rb sb (some d)).trace =
      sent (request_cb env sb (received_msg rb d)).trace := by
  rw [req_cb_request env rb sb d hlen hcookie ht]
  simp only [after_handler, sent]

theorem sent_req_cb_unclassified (env : Env) (rb sb : Buf) (d : List Nat)
    (hlen : 241 ≤ d.length) (hcookie : dgram_cookie d = [99, 130, 83, 99])
    (ht : classified_type rb d = 0) :
    sent (req_cb env rb sb (some d)).trace = [] := by
  rw [req_cb_wellformed env rb sb d hlen hcookie]
  simp [ht, DHCPDISCOVER, DHCPREQUEST, DHCPRELEASE, DHCPDECLINE, DHCPINFORM, sent]

/-- C14 (at two failing inputs): (1) The 242-byte datagram whose only option is
53 with length 0 is yielded as an option whose data starts at offset 242, the end of
the datagram; `req_cb` reads the message type there.  After a zeroed buffer the type
is 0 and nothing is sent; after a DISCOVER has been received the byte left at offset
242 is 1 and an OFFER is sent.  (2) The 252-byte REQUEST whose option 50 has one
data byte at offset 251 makes `request_cb` compare the four bytes from 251 on;
after a zeroed buffer the reply is the NAK, after the 256-byte REQUEST for
192.0.2.10 has been received it is the ACK. -/
theorem req_cb_reads_stale_bytes :
    (sample_short_type.length = 242 ∧
      msg_options (received_msg (fun _ => 0) sample_short_type) = [⟨53, 0, 242⟩] ∧
      classified_type (fun _ => 0) sample_short_type = 0 ∧
      sent (req_cb sample_lease_env (fun _ => 0) (fun _ => 0)
        (some sample_short_type)).trace = [] ∧
      classified_type (received (fun _ => 0) (sample_datagram [53, 1, 1, 255]))
        sample_short_type = 1 ∧
      ∃ d, sent (req_cb sample_lease_env (received (fun _ => 0) (sample_datagram [53, 1, 1, 255]))
          (fun _ => 0) (some sample_short_type)).trace = [d] ∧
        (dgram_options d).take 3 = [53, 1, 2]) ∧
    (sample_short_ip.length = 252 ∧
      last_option 50 (msg_options (received_msg (fun _ => 0) sample_short_ip)) = some 251 ∧
      (∃ d, sent (req_cb sample_lease_env (fun _ => 0) (fun _ => 0)
          (some sample_short_ip)).trace = [d] ∧ dgram_options d = [53, 1, 6, 255]) ∧
      ∃ d, sent (req_cb sample_lease_env (received (fun _ => 0) sample_full_request)
          (fun _ => 0) (some sample_short_ip)).trace = [d] ∧
        (dgram_options d).take 3 = [53, 1, 5]) := by
  refine ⟨⟨by decide, by decide, by decide, ?_, by decide, ?_⟩, by decide, by decide, ?_, ?_⟩
  · exact sent_req_cb_unclassified _ _ _ _ (by decide) (by decide) (by decide)
  · rw [sent_req_cb_discover _ _ _ _ (by decide) (by decide) (by decide)]
    obtain ⟨d, h1, _, _, _, h5, _⟩ := discover_cb_offer sample_lease_env (fun _ => 0)
      (received_msg (received (fun _ => 0) (sample_datagram [53, 1, 1, 255])) sample_short_type)
      (sample_row 24) ⟨192, 0, 2, 10⟩ ⟨192, 0, 2, 1⟩ ⟨192, 0, 2, 1⟩ rfl (by decide)
      (by decide) (by decide)
    exact ⟨d, h1, by rw [h5]; rfl⟩
  · rw [sent_req_cb_request _ _ _ _ (by decide) (by decide) (by decide),
      request_cb_row_nak sample_lease_env (fun _ => 0)
        (received_msg (fun _ => 0) sample_short_ip) (sample_row 24) ⟨192, 0, 2, 10⟩
        ⟨192, 0, 2, 1⟩ ⟨192, 0, 2, 1⟩ 251 (by decide) (by decide) (by decide) rfl (by decide)
        (by decide) (by decide)]
    obtain ⟨d, h1, _, h3, _⟩ := request_cb_nack_sent sample_lease_env (fun _ => 0)
      (received_msg (fun _ => 0) sample_short_ip)
      [event.lookup (received_msg (fun _ => 0) sample_short_ip).chaddr] rfl
    exact ⟨d, h1, h3⟩
  · rw [sent_req_cb_request _ _ _ _ (by decide) (by decide) (by decide)]
    obtain ⟨d, h1, _, _, _, h5⟩ := request_cb_ack sample_lease_env (fun _ => 0)
      (received_msg (received (fun _ => 0) sample_full_request) sample_short_ip)
      (sample_row 24) ⟨192, 0, 2, 10⟩ ⟨192, 0, 2, 1⟩ ⟨192, 0, 2, 1⟩ 251 (by decide)
      (by decide) (by decide) rfl (by decide) (by decide) (by decide)
    exact ⟨d, h1, by rw [h5]; rfl⟩

/-- C15 (at the failing input): the REQUEST addressed to this server with options
53 and 54 and no option 50, for a hardware address with the specification's lease
record, leaves `requested_addr` null; `request_cb` reaches
`memcmp(&address, requested_addr, 4)` and the process stops there: no ACK and no NAK
is sent. -/
theorem request_cb_without_option_50 :
    requested_addr_ptr sample_request_no_ip = none ∧
      load_in_addr sample_request_no_ip.data (requested_server_ptr sample_request_no_ip) =
        sample_lease_env.server_id ∧
      (request_cb sample_lease_env (fun _ => 0) sample_request_no_ip).crashed = true ∧
      sent (request_cb sample_lease_env (fun _ => 0) sample_request_no_ip).trace = [] ∧
      (req_cb sample_lease_env (fun _ => 0) (fun _ => 0)
        (some (sample_datagram [53, 1, 3, 54, 4, 192, 0, 2, 1, 255]))).crashed = true ∧
      sent (req_cb sample_lease_env (fun _ => 0) (fun _ => 0)
        (some (sample_datagram [53, 1, 3, 54, 4, 192, 0, 2, 1, 255]))).trace = [] := by
  have h := request_cb_null sample_lease_env (fun _ => 0) sample_request_no_ip (sample_row 24)
    ⟨192, 0, 2, 10⟩ ⟨192, 0, 2, 1⟩ ⟨192, 0, 2, 1⟩ (by decide) (by decide) rfl (by decide)
    (by decide) (by decide)
  have h2 := request_cb_null sample_lease_env (fun _ => 0)
    (received_msg (fun _ => 0) (sample_datagram [53, 1, 3, 54, 4, 192, 0, 2, 1, 255]))
    (sample_row 24) ⟨192, 0, 2, 10⟩ ⟨192, 0, 2, 1⟩ ⟨192, 0, 2, 1⟩ (by decide) (by decide) rfl
    (by decide) (by decide) (by decide)
  refine ⟨by decide, by decide, ?_, ?_, ?_, ?_⟩
  · rw [h]
  · rw [h]; rfl
  · rw [req_cb_request _ _ _ _ (by decide) (by decide) (by decide), h2]
    rfl
  · rw [req_cb_request _ _ _ _ (by decide) (by decide) (by decide), h2]
    rfl

/-- C16: for every datagram that passes the length and cookie checks, the type
`req_cb` dispatches on is the byte at the data pointer of the last option 53 that
the cursor yields, and 0 when it yields none; and the option loop of `request_cb`
ends with `requested_addr` at the data of the last yielded option 50 (null when
there is none) and `requested_server` at the data of the last yielded option 54
(at `siaddr` when there is none).  The loops end because the cursor is exhausted:
more fuel yields the same options. -/
theorem last_option_wins (env : Env) (rb sb : Buf) (d : List Nat) (hlen : 241 ≤ d.length)
    (hcookie : dgram_cookie d = [99, 130, 83, 99]) :
    classified_type rb d =
        ((last_option 53 (msg_options (received_msg rb d))).map (received rb d)).getD 0 ∧
      (req_cb env rb sb (some d) =
        if classified_type rb d = DHCPDISCOVER then
          after_handler rb d (discover_cb env sb (received_msg rb d))
        else if classified_type rb d = DHCPREQUEST then
          after_handler rb d (request_cb env sb (received_msg rb d))
        else if classified_type rb d = DHCPRELEASE then
          after_handler rb d (release_cb env sb (received_msg rb d))
        else if classified_type rb d = DHCPDECLINE then
          after_handler rb d (decline_cb env sb (received_msg rb d))
        else if classified_type rb d = DHCPINFORM then
          after_handler rb d (inform_cb env sb (received_msg rb d))
        else ⟨received rb d, sb, [event.stderr (diagnostic.debug_dump (classified_type rb d)),
          event.stderr diagnostic.broken_software_notification], false⟩) ∧
      request_cb_options (received_msg rb d).data (received_msg rb d).msg_end
          ((received_msg rb d).msg_end - DHCP_MSG_F_OPTIONS) DHCP_MSG_F_OPTIONS none
          DHCP_MSG_F_SIADDR =
        (last_option 50 (msg_options (received_msg rb d)),
          (last_option 54 (msg_options (received_msg rb d))).getD DHCP_MSG_F_SIADDR) ∧
      ∀ fuel, (received_msg rb d).msg_end - DHCP_MSG_F_OPTIONS ≤ fuel →
        dhcp_opt_list (received_msg rb d).data (received_msg rb d).msg_end fuel
          DHCP_MSG_F_OPTIONS = msg_options (received_msg rb d) := by
  refine ⟨?_, req_cb_wellformed env rb sb d hlen hcookie, ?_, ?_⟩
  · unfold classified_type
    rw [req_cb_msg_type_eq]
    rfl
  · exact request_cb_options_msg (received_msg rb d)
  · intro fuel hfuel
    exact dhcp_opt_list_fuel _ _ fuel _ _ hfuel (Nat.le_refl _)

/-- C16 holds for a datagram with the options 53 (type 3), 53 (type 7), 50, 50: the
type is 7 and `requested_addr` points at the data of the second option 50. -/
theorem last_option_wins_witness :
    classified_type (fun _ => 0) sample_repeated = 7 ∧
      last_option 50 (msg_options (received_msg (fun _ => 0) sample_repeated)) = some 254 := by
  have w := last_option_wins sample_lease_env (fun _ => 0) (fun _ => 0) sample_repeated
    (by decide) (by decide)
  refine ⟨?_, by decide⟩
  rw [w.1]
  decide

end Dhcpd
